import Mathlib

/-!
# GitHub MCP server: session lifecycle and command dispatch

A shallow embedding of `src/modules/mcp-protocol.js` (the four request handlers
`handleConnect`, `handleAuthenticate`, `handleCommand`, `handleDisconnect`, the
id generator and the four command handlers), of the value returned by
`verifyToken` in `src/modules/github-api.js`, and of the `/status` probe of
`src/server.js`.

Modelling conventions.

* JavaScript values that reach the handlers are JSON values (the request body is
  produced by the JSON body parser) plus `undefined` for an absent property.
* The module-level `sessions` Map is a list of entries in insertion order, keyed
  by strings: the only `sessions.set` in the module (line 19) uses the string
  built by `generateSessionId`.
* Session records are JavaScript objects, shared by reference between the Map
  and the promise callbacks that captured them.  Every record carries the
  reference `ref` under which it was allocated; mutation of a captured object is
  mutation of the record with that reference.
* The provider client (`github-api.js`, mocked in the tests) is a parameter: each
  of its operations either resolves with a value or rejects with an error whose
  `message` is recorded.  A handler is run until its promise has settled, and
  reports the provider operations it invoked.
* Logger calls have no effect on the session store or on the response.
* JavaScript runs each callback to completion.  A handler whose promise settles
  later is also given in two atomic parts, its synchronous part
  (`authenticateStarted`) and its callbacks (`authenticateSettled`,
  `commandSettled`), between which other requests may be served.
-/

namespace McpProtocol

/-! ## JavaScript values -/

/-- JSON values, extended with `undefined`. A number is given by the string that
`Number.prototype.toString` prints for it (`0` for both zeros), which determines
it up to the sign of zero. -/
inductive JVal where
  | undefined : JVal
  | null : JVal
  | bool (b : Bool) : JVal
  | num (shown : String) : JVal
  | str (s : String) : JVal
  | arr (items : List JVal) : JVal
  | obj (fields : List (String × JVal)) : JVal

namespace JVal

/-- JavaScript truthiness (`!v` is its negation). -/
def truthy : JVal → Bool
  | undefined => false
  | null => false
  | bool b => b
  | num shown => shown != "0"
  | str s => s != ""
  | arr _ => true
  | obj _ => true

/-- Values on which property access and destructuring throw a `TypeError`. -/
def isNullish : JVal → Bool
  | undefined => true
  | null => true
  | _ => false

/-- Property lookup in a list of object fields; `undefined` when absent. -/
def lookupField (k : String) : List (String × JVal) → JVal
  | [] => undefined
  | (k', v) :: rest => if k' = k then v else lookupField k rest

/-- Read of the property `k` of a non-nullish value, for the property names the
handlers read (none of them is defined on a primitive or on an array). -/
def getField (v : JVal) (k : String) : JVal :=
  match v with
  | obj fields => lookupField k fields
  | _ => undefined

/-- The object with these fields has an own property named `k`. -/
def hasField (k : String) (fields : List (String × JVal)) : Bool :=
  fields.any (fun e => e.1 == k)

mutual
/-- JavaScript `ToString`, as applied by a template literal; `none` when the
conversion throws a `TypeError`. An object of the request body is converted by
the inherited `toString`, unless it has an own property `toString`: such a
property is not callable, the inherited `valueOf` returns the object itself, and
the conversion throws. -/
def toJsString : JVal → Option String
  | undefined => some "undefined"
  | null => some "null"
  | bool b => some (if b then "true" else "false")
  | num shown => some shown
  | str s => some s
  | arr items => joinItems items
  | obj fields => if hasField "toString" fields then none else some "[object Object]"
/-- Array elements joined with commas, as `Array.prototype.join` does. -/
def joinItems : List JVal → Option String
  | [] => some ""
  | [x] => itemString x
  | x :: y :: rest =>
    match itemString x, joinItems (y :: rest) with
    | some first, some others => some (first ++ "," ++ others)
    | _, _ => none
/-- String of one array element: `null` and `undefined` are the empty string. -/
def itemString : JVal → Option String
  | undefined => some ""
  | null => some ""
  | bool b => some (if b then "true" else "false")
  | num shown => some shown
  | str s => some s
  | arr items => joinItems items
  | obj fields => if hasField "toString" fields then none else some "[object Object]"
end

end JVal

open JVal

/-! ## Data model -/

/-- Value with which `verifyToken` resolves (github-api.js lines 16-21): `login`
is the login name of the account, a string; `token` is the token of the request. -/
structure User where
  login : String
  id : JVal
  name : JVal
  token : JVal

/-- Session record stored in the `sessions` Map (object literal of lines 19-25).
`user` is absent until line 57 assigns it; `ref` is the object reference. -/
structure Session where
  ref : Nat
  id : String
  status : String
  connectedAt : Nat
  authenticated : Bool
  client : String
  user : Option User

/-- Entries of the `sessions` Map, in insertion order. -/
abbrev SessionMap := List (String × Session)

namespace SessionMap

/-- Lookup `sessions.get(k)` for a string key. -/
def find (k : String) : SessionMap → Option Session
  | [] => none
  | (k', s) :: rest => if k' = k then some s else find k rest

/-- Membership `sessions.has(v)`: keys are strings, so only a string value can be
a key (same-value-zero comparison). -/
def has (m : SessionMap) (v : JVal) : Bool :=
  match v with
  | str k => (find k m).isSome
  | _ => false

/-- Lookup `sessions.get(v)`. -/
def get (m : SessionMap) (v : JVal) : Option Session :=
  match v with
  | str k => find k m
  | _ => none

/-- Assignment `sessions.set(k, s)`: the value of an existing key is replaced in
place, a new key is appended. -/
def set (k : String) (s : Session) : SessionMap → SessionMap
  | [] => [(k, s)]
  | (k', s') :: rest => if k' = k then (k', s) :: rest else (k', s') :: set k s rest

/-- Removal `sessions.delete(v)`. -/
def delete (m : SessionMap) (v : JVal) : SessionMap :=
  match v with
  | str k => m.filter (fun e => e.1 != k)
  | _ => m

/-- In-place mutation of the record object with reference `r`. -/
def mutate (r : Nat) (f : Session → Session) (m : SessionMap) : SessionMap :=
  m.map (fun e => (e.1, if e.2.ref = r then f e.2 else e.2))

end SessionMap

/-- Module state: the `sessions` Map and the next free object reference. -/
structure State where
  sessions : SessionMap
  nextRef : Nat

/-- State of a freshly loaded module (line 11). -/
def State.init : State := ⟨[], 0⟩

/-- Parsed request: the `user-agent` header and the fields of the JSON body. -/
structure Request where
  userAgent : Option String
  body : List (String × JVal)

/-- Response sent through `res`: HTTP status code and the object given to
`res.json`. -/
structure Response where
  code : Nat
  body : List (String × JVal)

/-- What a handler does with the request: it responds, or an exception escapes
it. -/
inductive Outcome where
  | responded (r : Response) : Outcome
  | threw (error : String) : Outcome

/-- Provider client of `github-api.js`: each operation resolves (`ok`) or rejects
with an error of the given message (`error`). The first argument is the token. -/
structure Provider where
  verifyToken : JVal → Except String User
  createRepository : JVal → JVal → Except String JVal
  pushFiles : JVal → JVal → Except String JVal
  createIssue : JVal → JVal → Except String JVal
  createPullRequest : JVal → JVal → Except String JVal

/-- Invocation of a provider operation, with its arguments. -/
inductive ProviderCall where
  | verifyToken (token : JVal) : ProviderCall
  | createRepository (token args : JVal) : ProviderCall
  | pushFiles (token args : JVal) : ProviderCall
  | createIssue (token args : JVal) : ProviderCall
  | createPullRequest (token args : JVal) : ProviderCall

/-- Result of running a handler: new state, outcome, provider operations invoked
(in order). -/
structure Result where
  state : State
  outcome : Outcome
  calls : List ProviderCall

/-- Values read from the environment by `handleConnect`: `Date.now()`,
`Math.random().toString(36)` and `new Date()`. -/
structure Ambient where
  now : Nat
  random36 : String
  date : Nat

/-! ## Responses -/

/-- Body of the `InvalidSession` response (lines 45-48 and 85-88). -/
def invalidSessionBody : List (String × JVal) :=
  [("status", str "error"), ("message", str "Invalid session ID")]

/-- Body of the `NotAuthorized` response (lines 94-97). -/
def notAuthenticatedBody : List (String × JVal) :=
  [("status", str "error"), ("message", str "Session not authenticated")]

/-- Body of the response to a rejected credential (lines 71-74). -/
def authenticationFailedBody : List (String × JVal) :=
  [("status", str "error"), ("message", str "Authentication failed")]

/-- Body of the acknowledgement of `handleDisconnect` (lines 135-138). -/
def disconnectedBody : List (String × JVal) :=
  [("status", str "success"), ("message", str "Disconnected")]

/-- Body of a response of a command handler whose promise chain reached `.catch`
with an error of message `m` (lines 168-172, 192-196, 220-224, 248-252). -/
def providerErrorBody (failure m : String) : List (String × JVal) :=
  [("status", str "error"), ("message", str failure), ("error", str m)]

/-- Response of the `/status` probe (server.js lines 24-31). -/
def statusProbe : Response :=
  ⟨200, [("status", str "online"), ("name", str "GitHub MCP Server"),
    ("version", str "1.0.0"), ("protocol", str "MCP/2.1")]⟩

/-- Name of a nullish value in the message of a `TypeError`. -/
def nullishName : JVal → String
  | null => "null"
  | _ => "undefined"

/-- Message of the `TypeError` raised by reading property `k` of the nullish
value `v`. -/
def readError (v : JVal) (k : String) : String :=
  "Cannot read properties of " ++ nullishName v ++ " (reading \x27" ++ k ++ "\x27)"

/-- Message of the `TypeError` raised by a template literal on a value that has
no string conversion. -/
def conversionError : String := "Cannot convert object to primitive value"

/-- Message of the `TypeError` raised by destructuring the nullish value `v` for
property `k`. -/
def destructureError (v : JVal) (k : String) : String :=
  "Cannot destructure property \x27" ++ k ++ "\x27 of \x27parameters\x27 as it is "
    ++ nullishName v ++ "."

/-! ## Handlers -/

/-- Session id built by `generateSessionId` (lines 144-146) from `Date.now()` and
from the string `Math.random().toString(36)`, of which `substring(2, 15)` keeps
the characters at positions 2 to 14. -/
def generateSessionId (now : Nat) (random36 : String) : String :=
  "mcp-" ++ toString now ++ "-" ++ String.mk ((random36.data.drop 2).take 13)

/-- Handler `handleConnect` (lines 16-36). -/
def handleConnect (st : State) (amb : Ambient) (req : Request) : Result :=
  let sessionId := generateSessionId amb.now amb.random36
  let client :=
    match req.userAgent with
    | some ua => if ua != "" then ua else "Unknown"
    | none => "Unknown"
  let session : Session :=
    { ref := st.nextRef, id := sessionId, status := "connected",
      connectedAt := amb.date, authenticated := false, client := client, user := none }
  { state := ⟨st.sessions.set sessionId session, st.nextRef + 1⟩
    outcome := .responded ⟨200,
      [("status", str "success"), ("sessionId", str sessionId),
       ("server", str "GitHub MCP Server"), ("protocol", str "MCP/2.1"),
       ("message", str "Connection established. Authentication required.")]⟩
    calls := [] }

/-- Callbacks of `handleAuthenticate` (lines 55-75), run when the promise of
`verifyToken` settles: `session` is the reference of the record captured at
line 51. The template literals of lines 59 and 69 convert strings only (the
`sessionId` that passed the guard, the login, the message of the error), so they
do not throw. -/
def authenticateSettled (st : State) (session : Nat) (settled : Except String User) :
    State × Outcome :=
  match settled with
  | .ok userData =>
    (⟨st.sessions.mutate session
        (fun s => { s with authenticated := true, user := some userData }), st.nextRef⟩,
     .responded ⟨200,
      [("status", str "success"), ("message", str "Authentication successful"),
       ("user", str userData.login), ("accessLevel", str "admin")]⟩)
  | .error _ => (st, .responded ⟨401, authenticationFailedBody⟩)

/-- Handler `handleAuthenticate` (lines 41-76). -/
def handleAuthenticate (P : Provider) (st : State) (req : Request) : Result :=
  let sessionId := lookupField "sessionId" req.body
  let token := lookupField "token" req.body
  if !sessionId.truthy || !st.sessions.has sessionId then
    ⟨st, .responded ⟨401, invalidSessionBody⟩, []⟩
  else
    match st.sessions.get sessionId with
    | none => ⟨st, .threw (readError undefined "authenticated"), [.verifyToken token]⟩
    | some session =>
      let done := authenticateSettled st session.ref (P.verifyToken token)
      ⟨done.1, done.2, [.verifyToken token]⟩

/-- Shape of the success data of the repository command (lines 159-162). -/
def repositoryData (repo : JVal) : JVal :=
  obj [("name", repo.getField "name"), ("url", repo.getField "html_url")]

/-- Shape of the success data of the issue and pull-request commands
(lines 211-214 and 239-242). -/
def numberedData (item : JVal) : JVal :=
  obj [("number", item.getField "number"), ("url", item.getField "html_url")]

/-- Promise chain `.then(...).catch(...)` of a command handler whose success
callback reads properties of the resolved value: a nullish value makes the
callback throw, which the `.catch` of the same chain receives. -/
def settleWithData (success failure firstKey : String) (shape : JVal → JVal)
    (settled : Except String JVal) : Outcome :=
  match settled with
  | .ok v =>
    if v.isNullish then .responded ⟨500, providerErrorBody failure (readError v firstKey)⟩
    else .responded ⟨200, [("status", str "success"), ("message", str success),
      ("data", shape v)]⟩
  | .error m => .responded ⟨500, providerErrorBody failure m⟩

/-- Handler `handleCreateRepository` (lines 151-174). -/
def handleCreateRepository (P : Provider) (session : Session) (parameters : JVal) :
    Outcome × List ProviderCall :=
  if parameters.isNullish then (.threw (destructureError parameters "name"), [])
  else
    match session.user with
    | none => (.threw (readError undefined "token"), [])
    | some user =>
      let args := obj [("name", parameters.getField "name"),
        ("description", parameters.getField "description"),
        ("private", parameters.getField "private")]
      (settleWithData "Repository created" "Failed to create repository" "name"
        repositoryData (P.createRepository user.token args),
       [.createRepository user.token args])

/-- Handler `handlePushFiles` (lines 179-198). -/
def handlePushFiles (P : Provider) (session : Session) (parameters : JVal) :
    Outcome × List ProviderCall :=
  if parameters.isNullish then (.threw (destructureError parameters "owner"), [])
  else
    match session.user with
    | none => (.threw (readError undefined "token"), [])
    | some user =>
      let args := obj [("owner", parameters.getField "owner"),
        ("repo", parameters.getField "repo"), ("branch", parameters.getField "branch"),
        ("files", parameters.getField "files"), ("message", parameters.getField "message")]
      (match P.pushFiles user.token args with
        | .ok _ => .responded ⟨200,
            [("status", str "success"), ("message", str "Files pushed successfully")]⟩
        | .error m => .responded ⟨500, providerErrorBody "Failed to push files" m⟩,
       [.pushFiles user.token args])

/-- Handler `handleCreateIssue` (lines 203-226). -/
def handleCreateIssue (P : Provider) (session : Session) (parameters : JVal) :
    Outcome × List ProviderCall :=
  if parameters.isNullish then (.threw (destructureError parameters "owner"), [])
  else
    match session.user with
    | none => (.threw (readError undefined "token"), [])
    | some user =>
      let args := obj [("owner", parameters.getField "owner"),
        ("repo", parameters.getField "repo"), ("title", parameters.getField "title"),
        ("body", parameters.getField "body"), ("labels", parameters.getField "labels")]
      (settleWithData "Issue created" "Failed to create issue" "number"
        numberedData (P.createIssue user.token args),
       [.createIssue user.token args])

/-- Handler `handleCreatePullRequest` (lines 231-254). -/
def handleCreatePullRequest (P : Provider) (session : Session) (parameters : JVal) :
    Outcome × List ProviderCall :=
  if parameters.isNullish then (.threw (destructureError parameters "owner"), [])
  else
    match session.user with
    | none => (.threw (readError undefined "token"), [])
    | some user =>
      let args := obj [("owner", parameters.getField "owner"),
        ("repo", parameters.getField "repo"), ("title", parameters.getField "title"),
        ("body", parameters.getField "body"), ("head", parameters.getField "head"),
        ("base", parameters.getField "base")]
      (settleWithData "Pull request created" "Failed to create pull request" "number"
        numberedData (P.createPullRequest user.token args),
       [.createPullRequest user.token args])

/-- Body of the `UnknownCommand` response (lines 117-120), for a command whose
string conversion is `shown`. -/
def unknownCommandBody (shown : String) : List (String × JVal) :=
  [("status", str "error"), ("message", str ("Unknown command: " ++ shown))]

/-- Handler `handleCommand` (lines 81-122). The template literal of line 100
converts `command` to a string before the `switch`, and throws when the value has
no conversion; line 119 repeats the conversion. The `switch` compares with `===`,
so only a string value selects a case. -/
def handleCommand (P : Provider) (st : State) (req : Request) : Result :=
  let sessionId := lookupField "sessionId" req.body
  let command := lookupField "command" req.body
  let parameters := lookupField "parameters" req.body
  if !sessionId.truthy || !st.sessions.has sessionId then
    ⟨st, .responded ⟨401, invalidSessionBody⟩, []⟩
  else
    match st.sessions.get sessionId with
    | none => ⟨st, .threw (readError undefined "authenticated"), []⟩
    | some session =>
      if !session.authenticated then
        ⟨st, .responded ⟨403, notAuthenticatedBody⟩, []⟩
      else
        match command.toJsString with
        | none => ⟨st, .threw conversionError, []⟩
        | some shown =>
          match command with
          | str name =>
            if name = "CREATE_REPOSITORY" then
              let done := handleCreateRepository P session parameters
              ⟨st, done.1, done.2⟩
            else if name = "PUSH_FILES" then
              let done := handlePushFiles P session parameters
              ⟨st, done.1, done.2⟩
            else if name = "CREATE_ISSUE" then
              let done := handleCreateIssue P session parameters
              ⟨st, done.1, done.2⟩
            else if name = "CREATE_PULL_REQUEST" then
              let done := handleCreatePullRequest P session parameters
              ⟨st, done.1, done.2⟩
            else ⟨st, .responded ⟨400, unknownCommandBody shown⟩, []⟩
          | _ => ⟨st, .responded ⟨400, unknownCommandBody shown⟩, []⟩

/-- Handler `handleDisconnect` (lines 127-139). -/
def handleDisconnect (st : State) (req : Request) : Result :=
  let sessionId := lookupField "sessionId" req.body
  let sessions :=
    if sessionId.truthy && st.sessions.has sessionId then st.sessions.delete sessionId
    else st.sessions
  ⟨⟨sessions, st.nextRef⟩, .responded ⟨200, disconnectedBody⟩, []⟩

/-! ## Request sequences -/

/-- One request served by the module, with what the environment supplies to it. -/
inductive Op where
  | connect (amb : Ambient) (req : Request) : Op
  | authenticate (P : Provider) (req : Request) : Op
  | command (P : Provider) (req : Request) : Op
  | disconnect (req : Request) : Op

/-- Serve one request. -/
def step (st : State) : Op → Result
  | .connect amb req => handleConnect st amb req
  | .authenticate P req => handleAuthenticate P st req
  | .command P req => handleCommand P st req
  | .disconnect req => handleDisconnect st req

/-- State after serving a sequence of requests in order. -/
def run (st : State) : List Op → State
  | [] => st
  | op :: ops => run (step st op).state ops

/-- States the module can be in: those reached from the initial state by serving
requests. -/
inductive Reachable : State → Prop where
  | init : Reachable State.init
  | step {st : State} (op : Op) : Reachable st → Reachable (step st op).state

/-- Every key of the Map is a truthy string. -/
def KeysTruthy (m : SessionMap) : Prop := ∀ e ∈ m, e.1 ≠ ""

/-- The request removes or replaces the record stored under `sid`: a disconnect
with that id, or a connect whose generated id is `sid`. -/
def Op.displaces (sid : String) : Op → Prop
  | .connect amb _ => generateSessionId amb.now amb.random36 = sid
  | .disconnect req => lookupField "sessionId" req.body = str sid
  | _ => False

/-! ## Split-phase view of the asynchronous handlers -/

/-- Synchronous part of `handleAuthenticate` (lines 42-54): when the guard of
line 44 passes, the reference of the record captured at line 51, held by the
callbacks while `verifyToken` is in flight; `none` when the guard answers. -/
def authenticateStarted (st : State) (req : Request) : Option Nat :=
  let sessionId := lookupField "sessionId" req.body
  if !sessionId.truthy || !st.sessions.has sessionId then none
  else (st.sessions.get sessionId).map (fun session => session.ref)

/-- Callbacks of a command handler (lines 155-173, 183-197, 207-225, 235-253), run
in state `st` when the promise of the provider operation settles: they answer
with `respond` and do not touch `sessions`. -/
def commandSettled (st : State) (respond : Except String JVal → Outcome)
    (settled : Except String JVal) : State × Outcome :=
  (st, respond settled)

/-! ## Predicates used by the statements -/

/-- The request is an authenticate or a command. -/
def Op.isAuthenticateOrCommand : Op → Bool
  | .authenticate _ _ => true
  | .command _ _ => true
  | _ => false

/-- Two records agree on everything but the authentication flag and the user:
reference, id, status string, creation time and client. -/
def Session.sameFrame (s s' : Session) : Prop :=
  s'.ref = s.ref ∧ s'.id = s.id ∧ s'.status = s.status ∧
    s'.connectedAt = s.connectedAt ∧ s'.client = s.client

/-- Client descriptor that `handleConnect` stores for a request (line 24). -/
def clientOf (req : Request) : String :=
  match req.userAgent with
  | some ua => if ua != "" then ua else "Unknown"
  | none => "Unknown"

/-- Invariant of the records of a state: an authenticated record has a user,
references are below the next free one, and no two keys hold the same object. -/
structure Inv (st : State) : Prop where
  user_of_auth : ∀ k s, SessionMap.find k st.sessions = some s →
    s.authenticated = true → ∃ u, s.user = some u
  ref_lt : ∀ k s, SessionMap.find k st.sessions = some s → s.ref < st.nextRef
  ref_inj : ∀ k₁ k₂ s₁ s₂, SessionMap.find k₁ st.sessions = some s₁ →
    SessionMap.find k₂ st.sessions = some s₂ → s₁.ref = s₂.ref → k₁ = k₂

/-- Arguments that `handleCreateRepository` passes to the provider (line 154). -/
def repositoryArgs (parameters : JVal) : JVal :=
  obj [("name", parameters.getField "name"),
    ("description", parameters.getField "description"),
    ("private", parameters.getField "private")]

/-- Arguments that `handlePushFiles` passes to the provider (line 182). -/
def pushArgs (parameters : JVal) : JVal :=
  obj [("owner", parameters.getField "owner"),
    ("repo", parameters.getField "repo"), ("branch", parameters.getField "branch"),
    ("files", parameters.getField "files"), ("message", parameters.getField "message")]

/-- Arguments that `handleCreateIssue` passes to the provider (line 206). -/
def issueArgs (parameters : JVal) : JVal :=
  obj [("owner", parameters.getField "owner"),
    ("repo", parameters.getField "repo"), ("title", parameters.getField "title"),
    ("body", parameters.getField "body"), ("labels", parameters.getField "labels")]

/-- Arguments that `handleCreatePullRequest` passes to the provider (line 234). -/
def pullRequestArgs (parameters : JVal) : JVal :=
  obj [("owner", parameters.getField "owner"),
    ("repo", parameters.getField "repo"), ("title", parameters.getField "title"),
    ("body", parameters.getField "body"), ("head", parameters.getField "head"),
    ("base", parameters.getField "base")]

/-- Envelope of the responses of the four handlers: a string `message`, and
either status `success` with HTTP 200, or status `error` with HTTP 400, 401 or
403 and no `error` property, or status `error` with HTTP 500 and a string
`error` property. -/
def Envelope (r : Response) : Prop :=
  (∃ msg, lookupField "message" r.body = str msg) ∧
  ((lookupField "status" r.body = str "success" ∧ r.code = 200 ∧
      hasField "error" r.body = false) ∨
    (lookupField "status" r.body = str "error" ∧
      (r.code = 400 ∨ r.code = 401 ∨ r.code = 403) ∧ hasField "error" r.body = false) ∨
    (lookupField "status" r.body = str "error" ∧ r.code = 500 ∧
      ∃ m, lookupField "error" r.body = str m))

/-! ## Fixtures: the stubs and requests of `src/tests/server.test.js` -/

/-- Identity returned by the mocked verifier of the tests (lines 83-88). -/
def testUser : User :=
  ⟨"testuser", num "123", str "Test User", str "valid_token"⟩

/-- Provider stub of the tests: the verifier accepts exactly `valid_token`
(lines 81-92), the commands resolve with the mocked values (lines 157-173). -/
def testProvider : Provider where
  verifyToken token :=
    match token with
    | str t => if t = "valid_token" then .ok testUser else .error "Invalid token"
    | _ => .error "Invalid token"
  createRepository _ _ := .ok (obj [("name", str "test-repo"),
    ("full_name", str "testuser/test-repo"),
    ("html_url", str "https://github.com/testuser/test-repo")])
  pushFiles _ _ := .ok (bool true)
  createIssue _ _ := .ok (obj [("number", num "1"),
    ("html_url", str "https://github.com/testuser/test-repo/issues/1")])
  createPullRequest _ _ := .ok (obj [("number", num "2"),
    ("html_url", str "https://github.com/testuser/test-repo/pulls/2")])

/-- Clock and random source at a connect. -/
def testAmbient : Ambient := ⟨1700000000000, "0.4fzyo82mvyr", 1700000000000⟩

/-- Connect request of a client that declares itself. -/
def connectRequest : Request := ⟨some "supertest", []⟩

/-- Id that `testAmbient` yields. -/
def testId : String := "mcp-1700000000000-4fzyo82mvyr"

/-- State after one connect. -/
def connectedState : State := (step State.init (.connect testAmbient connectRequest)).state

/-- Authenticate request on the test session with the given token. -/
def authenticateRequest (token : String) : Request :=
  ⟨none, [("sessionId", str testId), ("token", str token)]⟩

/-- State after a connect and a successful authenticate. -/
def authenticatedState : State :=
  (step connectedState (.authenticate testProvider (authenticateRequest "valid_token"))).state

/-- Command request on the test session. -/
def commandRequest (command : String) (parameters : JVal) : Request :=
  ⟨none, [("sessionId", str testId), ("command", str command), ("parameters", parameters)]⟩

/-- Disconnect request with the given id. -/
def disconnectRequest (sid : String) : Request := ⟨none, [("sessionId", str sid)]⟩

/-- Provider whose command operations reject with a message, as a mocked
operation set up with a rejected value does; its verifier is the one of the tests. -/
def failingProvider : Provider where
  verifyToken := testProvider.verifyToken
  createRepository _ _ := .error "name already exists on this account"
  pushFiles _ _ := .error "Reference does not exist"
  createIssue _ _ := .error "Not Found"
  createPullRequest _ _ := .error "Validation Failed"

/-- A second identity, with its own token. -/
def otherUser : User :=
  ⟨"otheruser", num "456", str "Other User", str "other_token"⟩

/-- Provider whose verifier resolves with the second identity. -/
def otherProvider : Provider where
  verifyToken _ := .ok otherUser
  createRepository := testProvider.createRepository
  pushFiles := testProvider.pushFiles
  createIssue := testProvider.createIssue
  createPullRequest := testProvider.createPullRequest

/-- Record of the test session once authenticated. -/
def authenticatedRecord : Session :=
  ⟨0, testId, "connected", 1700000000000, true, "supertest", some testUser⟩

/-- Record of the test session before it is authenticated. -/
def connectedRecord : Session :=
  ⟨0, testId, "connected", 1700000000000, false, "supertest", none⟩

/-- Repository command of the tests (lines 178-187). -/
def repositoryRequest : Request :=
  commandRequest "CREATE_REPOSITORY" (obj [("name", str "test-repo"),
    ("description", str "Test repository"), ("private", bool false)])

/-- Clock and random source at a second connect, one millisecond later. -/
def secondAmbient : Ambient := ⟨1700000000001, "0.9k2ld7qwx0a", 1700000000001⟩

/-- Id that `secondAmbient` yields. -/
def secondId : String := "mcp-1700000000001-9k2ld7qwx0a"

/-- State with two live sessions, none authenticated. -/
def twoSessionsState : State :=
  (step connectedState (.connect secondAmbient ⟨none, []⟩)).state

/-- Record of the second session. -/
def secondRecord : Session :=
  ⟨1, secondId, "connected", 1700000000001, false, "Unknown", none⟩

/-- Repository command that carries no `parameters` property. -/
def bareRepositoryRequest : Request :=
  ⟨none, [("sessionId", str testId), ("command", str "CREATE_REPOSITORY")]⟩

/-- Push command that carries no `parameters` property. -/
def barePushRequest : Request :=
  ⟨none, [("sessionId", str testId), ("command", str "PUSH_FILES")]⟩

/-- Issue command whose `parameters` property is `null`. -/
def nullIssueRequest : Request :=
  ⟨none, [("sessionId", str testId), ("command", str "CREATE_ISSUE"),
    ("parameters", null)]⟩

/-- Pull-request command whose `parameters` property is `null`. -/
def nullPullRequest : Request :=
  ⟨none, [("sessionId", str testId), ("command", str "CREATE_PULL_REQUEST"),
    ("parameters", null)]⟩

/-! ## Lemmas on the session Map -/

namespace SessionMap

theorem find_set_self (k : String) (s : Session) (m : SessionMap) :
    find k (set k s m) = some s := by
  induction m with
  | nil => simp [set, find]
  | cons e rest ih =>
    obtain ⟨k', s'⟩ := e
    by_cases h : k' = k
    · simp [set, find, h]
    · simp [set, find, h, ih]

theorem find_set_of_ne {k k' : String} (h : k' ≠ k) (s : Session) (m : SessionMap) :
    find k' (set k s m) = find k' m := by
  induction m with
  | nil => simp [set, find, Ne.symm h]
  | cons e rest ih =>
    obtain ⟨k₀, s₀⟩ := e
    by_cases h₀ : k₀ = k
    · subst h₀
      simp [set, find, Ne.symm h]
    · by_cases h₁ : k₀ = k'
      · subst h₁
        simp [set, find, h₀]
      · simp [set, find, h₀, h₁, ih]

theorem mem_of_find {k : String} {s : Session} {m : SessionMap} (h : find k m = some s) :
    (k, s) ∈ m := by
  induction m with
  | nil => simp [find] at h
  | cons e rest ih =>
    obtain ⟨k', s'⟩ := e
    by_cases hk : k' = k
    · simp [find, hk] at h
      simp [hk, h]
    · simp [find, hk] at h
      exact List.mem_cons_of_mem _ (ih h)

theorem mem_set {k : String} {s : Session} {m : SessionMap} {e : String × Session}
    (h : e ∈ set k s m) : e = (k, s) ∨ e ∈ m := by
  induction m with
  | nil => simpa [set] using h
  | cons e₀ rest ih =>
    obtain ⟨k₀, s₀⟩ := e₀
    by_cases hk : k₀ = k
    · simp [set, hk] at h
      rcases h with h | h
      · exact Or.inl h
      · exact Or.inr (List.mem_cons_of_mem _ h)
    · simp [set, hk] at h
      rcases h with h | h
      · exact Or.inr (by simp [h])
      · rcases ih h with h' | h'
        · exact Or.inl h'
        · exact Or.inr (List.mem_cons_of_mem _ h')

theorem find_filter_self (k : String) (m : SessionMap) :
    find k (m.filter (fun e => e.1 != k)) = none := by
  induction m with
  | nil => simp [find]
  | cons e rest ih =>
    obtain ⟨k', s'⟩ := e
    by_cases hk : k' = k
    · simp [List.filter_cons, hk, ih]
    · simp [List.filter_cons, hk, find, ih]

theorem find_filter_of_ne {k k' : String} (h : k' ≠ k) (m : SessionMap) :
    find k' (m.filter (fun e => e.1 != k)) = find k' m := by
  induction m with
  | nil => simp [find]
  | cons e rest ih =>
    obtain ⟨k₀, s₀⟩ := e
    by_cases hk : k₀ = k
    · subst hk
      simp [List.filter_cons, find, Ne.symm h, ih]
    · simp [List.filter_cons, hk, find, ih]

theorem find_mutate (r : Nat) (f : Session → Session) (k : String) (m : SessionMap) :
    find k (mutate r f m) = (find k m).map (fun s => if s.ref = r then f s else s) := by
  induction m with
  | nil => simp [mutate, find]
  | cons e rest ih =>
    obtain ⟨k', s'⟩ := e
    have ih' : find k (List.map (fun e => (e.1, if e.2.ref = r then f e.2 else e.2)) rest)
        = (find k rest).map (fun s => if s.ref = r then f s else s) := ih
    by_cases hk : k' = k <;> simp [mutate, find, hk, ih']

theorem mem_mutate {r : Nat} {f : Session → Session} {m : SessionMap} {e : String × Session}
    (h : e ∈ mutate r f m) : ∃ s, (e.1, s) ∈ m := by
  simp only [mutate, List.mem_map] at h
  obtain ⟨e₀, he₀, rfl⟩ := h
  exact ⟨e₀.2, he₀⟩

theorem get_str (m : SessionMap) (k : String) : get m (str k) = find k m := rfl

end SessionMap

/-! ## Invariants of reachable states -/

theorem generateSessionId_ne_empty (now : Nat) (random36 : String) :
    generateSessionId now random36 ≠ "" := by
  intro h
  have hlen := congrArg String.length h
  simp only [generateSessionId, String.length_append] at hlen
  have h4 : "mcp-".length = 4 := by decide
  have h0 : "".length = 0 := by decide
  omega

theorem handleCommand_state (P : Provider) (st : State) (req : Request) :
    (handleCommand P st req).state = st := by
  unfold handleCommand
  simp only []
  repeat' split
  all_goals rfl

theorem keysTruthy_step {st : State} (op : Op) (h : KeysTruthy st.sessions) :
    KeysTruthy (step st op).state.sessions := by
  cases op with
  | connect amb req =>
    intro e he
    rcases SessionMap.mem_set he with rfl | he'
    · exact generateSessionId_ne_empty _ _
    · exact h e he'
  | authenticate P req =>
    simp only [step, handleAuthenticate]
    split
    · exact h
    · split
      · exact h
      · rename_i session _
        cases hv : P.verifyToken (lookupField "token" req.body) with
        | error m => simpa [authenticateSettled, hv] using h
        | ok u =>
          intro e he
          simp only [authenticateSettled, hv] at he
          obtain ⟨s, hs⟩ := SessionMap.mem_mutate he
          exact h (e.1, s) hs
  | command P req =>
    simp only [step, handleCommand_state]
    exact h
  | disconnect req =>
    simp only [step, handleDisconnect]
    split
    · intro e he
      cases hv : lookupField "sessionId" req.body <;> simp only [hv, SessionMap.delete] at he
      all_goals first | exact h e he | exact h e (List.mem_of_mem_filter he)
    · exact h

theorem keysTruthy_of_reachable {st : State} (h : Reachable st) : KeysTruthy st.sessions := by
  induction h with
  | init => intro e he; simp [State.init] at he
  | step op _ ih => exact keysTruthy_step op ih

/-- A live session id of a reachable state is a truthy string. -/
theorem truthy_of_live {st : State} (h : Reachable st) {sid : String} {s : Session}
    (hs : SessionMap.find sid st.sessions = some s) : (str sid).truthy = true := by
  have := keysTruthy_of_reachable h _ (SessionMap.mem_of_find hs)
  simpa [truthy] using this

/-! ## The session guard shared by `handleAuthenticate` and `handleCommand` -/

/-- The guard of lines 44 and 84 rejects a `sessionId` that is missing, falsy or
not a key of the store. -/
theorem guard_rejects {st : State} {v : JVal}
    (h : v = undefined ∨ v.truthy = false ∨ st.sessions.has v = false) :
    (!v.truthy || !st.sessions.has v) = true := by
  rcases h with h | h | h
  · simp [h, truthy]
  · simp [h]
  · simp [h]

theorem handleCommand_of_guard (P : Provider) (st : State) (req : Request)
    (h : (!(lookupField "sessionId" req.body).truthy ||
      !st.sessions.has (lookupField "sessionId" req.body)) = true) :
    handleCommand P st req = ⟨st, .responded ⟨401, invalidSessionBody⟩, []⟩ := by
  simp [handleCommand, h]

theorem handleAuthenticate_of_guard (P : Provider) (st : State) (req : Request)
    (h : (!(lookupField "sessionId" req.body).truthy ||
      !st.sessions.has (lookupField "sessionId" req.body)) = true) :
    handleAuthenticate P st req = ⟨st, .responded ⟨401, invalidSessionBody⟩, []⟩ := by
  simp [handleAuthenticate, h]

/-! ## Persistence of authentication -/

theorem reachable_run {st : State} (h : Reachable st) (ops : List Op) :
    Reachable (run st ops) := by
  induction ops generalizing st with
  | nil => exact h
  | cons op ops ih => exact ih (Reachable.step op h)

theorem authenticated_step {st : State} {sid : String} {s : Session} (op : Op)
    (hs : SessionMap.find sid st.sessions = some s) (ha : s.authenticated = true)
    (hop : ¬ op.displaces sid) :
    ∃ s', SessionMap.find sid (step st op).state.sessions = some s' ∧
      s'.authenticated = true := by
  cases op with
  | connect amb req =>
    refine ⟨s, ?_, ha⟩
    simp only [step, handleConnect]
    rw [SessionMap.find_set_of_ne (fun e => hop e.symm)]
    exact hs
  | authenticate P req =>
    simp only [step, handleAuthenticate]
    split
    · exact ⟨s, hs, ha⟩
    · split
      · exact ⟨s, hs, ha⟩
      · rename_i session _
        cases hv : P.verifyToken (lookupField "token" req.body) with
        | error m => exact ⟨s, by simpa [authenticateSettled, hv] using hs, ha⟩
        | ok u =>
          simp only [authenticateSettled, hv, SessionMap.find_mutate, hs, Option.map_some']
          by_cases hr : s.ref = session.ref
          · exact ⟨_, by rw [if_pos hr], rfl⟩
          · exact ⟨_, by rw [if_neg hr], ha⟩
  | command P req =>
    simp only [step, handleCommand_state]
    exact ⟨s, hs, ha⟩
  | disconnect req =>
    refine ⟨s, ?_, ha⟩
    simp only [step, handleDisconnect]
    split
    · cases hv : lookupField "sessionId" req.body with
      | str k =>
        have hk : sid ≠ k := fun e => hop (by simp [Op.displaces, hv, e])
        simp only [SessionMap.delete]
        rw [SessionMap.find_filter_of_ne hk]
        exact hs
      | _ => simpa [SessionMap.delete] using hs
    · exact hs

theorem authenticated_run {sid : String} (ops : List Op) :
    ∀ {st : State} {s : Session}, SessionMap.find sid st.sessions = some s →
      s.authenticated = true → (∀ op ∈ ops, ¬ op.displaces sid) →
      ∃ s', SessionMap.find sid (run st ops).sessions = some s' ∧ s'.authenticated = true := by
  induction ops with
  | nil => intro st s hs ha _; exact ⟨s, hs, ha⟩
  | cons op ops ih =>
    intro st s hs ha hops
    obtain ⟨s₁, hs₁, ha₁⟩ := authenticated_step op hs ha (hops op (List.mem_cons_self _ _))
    exact ih hs₁ ha₁ (fun o ho => hops o (List.mem_cons_of_mem _ ho))

theorem settleWithData_ne_forbidden (success failure firstKey : String) (shape : JVal → JVal)
    (settled : Except String JVal) (body : List (String × JVal)) :
    settleWithData success failure firstKey shape settled ≠ .responded ⟨403, body⟩ := by
  unfold settleWithData
  split
  · split <;> simp
  · simp

/-- After a successful authenticate, and as long as no request removes or
replaces the record of the session, no command with a registered name is
answered with HTTP 403. -/
theorem authenticated_persists (st : State) (sid : String) (s : Session) (ops : List Op)
    (P : Provider) (req : Request) (hreach : Reachable st)
    (hs : SessionMap.find sid st.sessions = some s) (ha : s.authenticated = true)
    (hops : ∀ op ∈ ops, ¬ op.displaces sid)
    (hreq : lookupField "sessionId" req.body = str sid) (body : List (String × JVal)) :
    (handleCommand P (run st ops) req).outcome ≠ .responded ⟨403, body⟩ := by
  obtain ⟨s', hs', ha'⟩ := authenticated_run ops hs ha hops
  have ht := truthy_of_live (reachable_run hreach ops) hs'
  cases hcmd : lookupField "command" req.body with
  | str name =>
    simp only [handleCommand, hreq, ht, SessionMap.has, SessionMap.get, hs', ha', hcmd,
      toJsString]
    simp only [Option.isSome_some, Bool.not_true, Bool.or_self, Bool.false_eq_true, if_false]
    split
    · simp only [handleCreateRepository]
      split
      · simp
      · split
        · simp
        · exact settleWithData_ne_forbidden _ _ _ _ _ _
    · split
      · simp only [handlePushFiles]
        split
        · simp
        · split
          · simp
          · split <;> simp
      · split
        · simp only [handleCreateIssue]
          split
          · simp
          · split
            · simp
            · exact settleWithData_ne_forbidden _ _ _ _ _ _
        · split
          · simp only [handleCreatePullRequest]
            split
            · simp
            · split
              · simp
              · exact settleWithData_ne_forbidden _ _ _ _ _ _
          · simp
  | undefined | null | bool _ | num _ =>
    simp [handleCommand, hreq, ht, SessionMap.has, SessionMap.get, hs', ha', hcmd, toJsString]
  | arr _ | obj _ =>
    simp only [handleCommand, hreq, ht, SessionMap.has, SessionMap.get, hs', ha', hcmd]
    simp only [Option.isSome_some, Bool.not_true, Bool.or_self, Bool.false_eq_true, if_false]
    split <;> simp

/-! ## Reachability of the fixtures -/

theorem reachable_connectedState : Reachable connectedState :=
  Reachable.step _ Reachable.init

theorem reachable_authenticatedState : Reachable authenticatedState :=
  Reachable.step _ reachable_connectedState

/-! ## Claims -/

/-- C1: a command on a live session that is not authenticated is answered with
HTTP 403, status `error`, message `Session not authenticated`, whatever the command
and the parameters are; no provider operation is invoked and the state is kept. -/
theorem handleCommand_not_authenticated (P : Provider) (st : State) (req : Request)
    (sid : String) (s : Session) (hreach : Reachable st)
    (hlive : SessionMap.find sid st.sessions = some s) (hauth : s.authenticated = false)
    (hreq : lookupField "sessionId" req.body = str sid) :
    handleCommand P st req =
      ⟨st, .responded ⟨403, [("status", str "error"),
        ("message", str "Session not authenticated")]⟩, []⟩ := by
  have ht := truthy_of_live hreach hlive
  simp [handleCommand, hreq, ht, SessionMap.has, SessionMap.get, hlive, hauth,
    notAuthenticatedBody]

theorem handleCommand_not_authenticated_witness :
    handleCommand testProvider connectedState
        (commandRequest "CREATE_ISSUE" (obj [("owner", str "testuser")])) =
      ⟨connectedState, .responded ⟨403, [("status", str "error"),
        ("message", str "Session not authenticated")]⟩, []⟩ :=
  handleCommand_not_authenticated testProvider connectedState _ testId
    ⟨0, testId, "connected", 1700000000000, false, "supertest", none⟩
    reachable_connectedState rfl rfl rfl

/-- C2: a command whose `sessionId` is missing, falsy or not a key of the store
is answered with HTTP 401, status `error`, message `Invalid session ID`, whatever
the command and the parameters are; no provider operation is invoked and the
state is unchanged. -/
theorem handleCommand_invalid_session (P : Provider) (st : State) (req : Request)
    (h : lookupField "sessionId" req.body = undefined ∨
      (lookupField "sessionId" req.body).truthy = false ∨
      st.sessions.has (lookupField "sessionId" req.body) = false) :
    handleCommand P st req =
      ⟨st, .responded ⟨401, [("status", str "error"),
        ("message", str "Invalid session ID")]⟩, []⟩ := by
  exact handleCommand_of_guard P st req (guard_rejects h)

theorem handleCommand_invalid_session_witness :
    handleCommand testProvider connectedState
        ⟨none, [("sessionId", str "invalid_session_id"), ("command", str "CREATE_ISSUE")]⟩ =
      ⟨connectedState, .responded ⟨401, [("status", str "error"),
        ("message", str "Invalid session ID")]⟩, []⟩ :=
  handleCommand_invalid_session testProvider connectedState _ (Or.inr (Or.inr (by decide)))

/-- C3: on an authenticated live session, a command name that is none of the
four registered names (compared exactly, as strings) is answered with HTTP 400,
status `error` and the message `Unknown command: ` followed by that name; no
provider operation is invoked and the state is kept. -/
theorem handleCommand_unknown_command (P : Provider) (st : State) (req : Request)
    (sid : String) (s : Session) (name : String) (hreach : Reachable st)
    (hlive : SessionMap.find sid st.sessions = some s) (hauth : s.authenticated = true)
    (hreq : lookupField "sessionId" req.body = str sid)
    (hcmd : lookupField "command" req.body = str name)
    (h₁ : name ≠ "CREATE_REPOSITORY") (h₂ : name ≠ "PUSH_FILES")
    (h₃ : name ≠ "CREATE_ISSUE") (h₄ : name ≠ "CREATE_PULL_REQUEST") :
    handleCommand P st req =
      ⟨st, .responded ⟨400, [("status", str "error"),
        ("message", str ("Unknown command: " ++ name))]⟩, []⟩ := by
  have ht := truthy_of_live hreach hlive
  simp [handleCommand, hreq, ht, SessionMap.has, SessionMap.get, hlive, hauth, hcmd,
    toJsString, h₁, h₂, h₃, h₄, unknownCommandBody]

theorem handleCommand_unknown_command_witness :
    handleCommand testProvider authenticatedState (commandRequest "create_repository" (obj [])) =
      ⟨authenticatedState, .responded ⟨400, [("status", str "error"),
        ("message", str ("Unknown command: " ++ "create_repository"))]⟩, []⟩ :=
  handleCommand_unknown_command testProvider authenticatedState
    (commandRequest "create_repository" (obj [])) testId
    ⟨0, testId, "connected", 1700000000000, true, "supertest", some testUser⟩
    "create_repository" reachable_authenticatedState rfl rfl rfl rfl
    (by decide) (by decide) (by decide) (by decide)

/-- C4: an authenticate whose `sessionId` is missing, falsy or not a key of the
store is answered with HTTP 401, status `error`, message `Invalid session ID`, for
every token and every verifier (also one that would accept); the verifier is not
called and the state, hence the store, is unchanged. -/
theorem handleAuthenticate_invalid_session (P : Provider) (st : State) (req : Request)
    (h : lookupField "sessionId" req.body = undefined ∨
      (lookupField "sessionId" req.body).truthy = false ∨
      st.sessions.has (lookupField "sessionId" req.body) = false) :
    handleAuthenticate P st req =
      ⟨st, .responded ⟨401, [("status", str "error"),
        ("message", str "Invalid session ID")]⟩, []⟩ := by
  exact handleAuthenticate_of_guard P st req (guard_rejects h)

theorem handleAuthenticate_invalid_session_witness :
    handleAuthenticate testProvider connectedState
        ⟨none, [("sessionId", str "invalid_session_id"), ("token", str "valid_token")]⟩ =
      ⟨connectedState, .responded ⟨401, [("status", str "error"),
        ("message", str "Invalid session ID")]⟩, []⟩ :=
  handleAuthenticate_invalid_session testProvider connectedState _
    (Or.inr (Or.inr (by decide)))

/-- C5: on a live session, an authenticate whose token the verifier rejects is
answered with HTTP 401, status `error`, message `Authentication failed`, after one
call of the verifier; the state is unchanged, so the session is still in the
store with the record it had, and a later authenticate on the same id with an
accepted token succeeds and leaves the session authenticated with that identity. -/
theorem handleAuthenticate_rejected (P : Provider) (st : State) (req : Request)
    (sid : String) (s : Session) (m : String) (hreach : Reachable st)
    (hlive : SessionMap.find sid st.sessions = some s)
    (hreq : lookupField "sessionId" req.body = str sid)
    (hrej : P.verifyToken (lookupField "token" req.body) = .error m) :
    handleAuthenticate P st req =
      ⟨st, .responded ⟨401, [("status", str "error"),
        ("message", str "Authentication failed")]⟩,
        [.verifyToken (lookupField "token" req.body)]⟩ ∧
    SessionMap.find sid (handleAuthenticate P st req).state.sessions = some s ∧
    ∀ (P' : Provider) (req' : Request) (u : User),
      lookupField "sessionId" req'.body = str sid →
      P'.verifyToken (lookupField "token" req'.body) = .ok u →
      (handleAuthenticate P' (handleAuthenticate P st req).state req').outcome =
        .responded ⟨200, [("status", str "success"),
          ("message", str "Authentication successful"), ("user", str u.login),
          ("accessLevel", str "admin")]⟩ ∧
      SessionMap.find sid
          (handleAuthenticate P' (handleAuthenticate P st req).state req').state.sessions =
        some { s with authenticated := true, user := some u } := by
  have ht := truthy_of_live hreach hlive
  have main : handleAuthenticate P st req =
      ⟨st, .responded ⟨401, [("status", str "error"),
        ("message", str "Authentication failed")]⟩,
        [.verifyToken (lookupField "token" req.body)]⟩ := by
    simp [handleAuthenticate, hreq, ht, SessionMap.has, SessionMap.get, hlive, hrej,
      authenticateSettled, authenticationFailedBody]
  refine ⟨main, ?_, ?_⟩
  · rw [main]
    exact hlive
  · intro P' req' u hreq' hacc
    rw [main]
    constructor
    · simp [handleAuthenticate, hreq', ht, SessionMap.has, SessionMap.get, hlive, hacc,
        authenticateSettled]
    · simp [handleAuthenticate, hreq', ht, SessionMap.has, SessionMap.get, hlive, hacc,
        authenticateSettled, SessionMap.find_mutate]

theorem handleAuthenticate_rejected_witness :
    handleAuthenticate testProvider connectedState (authenticateRequest "invalid_token") =
      ⟨connectedState, .responded ⟨401, [("status", str "error"),
        ("message", str "Authentication failed")]⟩, [.verifyToken (str "invalid_token")]⟩ :=
  (handleAuthenticate_rejected testProvider connectedState
    (authenticateRequest "invalid_token") testId
    ⟨0, testId, "connected", 1700000000000, false, "supertest", none⟩ "Invalid token"
    reachable_connectedState rfl rfl rfl).1

/-- C6: a connect that generates the id of an authenticated session reverts it:
before the connect the repository command on the session succeeds, after it the
same command is answered with HTTP 403 `Session not authenticated`, although the
session was never disconnected. -/
theorem authentication_reverted_by_connect :
    (handleCommand testProvider authenticatedState
      (commandRequest "CREATE_REPOSITORY" (obj [("name", str "test-repo")]))).outcome =
      .responded ⟨200, [("status", str "success"), ("message", str "Repository created"),
        ("data", obj [("name", str "test-repo"),
          ("url", str "https://github.com/testuser/test-repo")])]⟩ ∧
    (handleCommand testProvider
      (run authenticatedState [.connect testAmbient connectRequest])
      (commandRequest "CREATE_REPOSITORY" (obj [("name", str "test-repo")]))).outcome =
      .responded ⟨403, [("status", str "error"),
        ("message", str "Session not authenticated")]⟩ := by
  constructor <;> rfl

/-- C7: a connect always succeeds: it responds HTTP 200 with status `success`,
the generated `sessionId`, server `GitHub MCP Server` and protocol `MCP/2.1`, the
literal that the `/status` probe returns too; a lookup of that id in the new
store yields a record with that id, status `connected`, `authenticated` false, no
user, and as client the user-agent header, or `Unknown` when the header is absent
or empty. -/
theorem handleConnect_succeeds (st : State) (amb : Ambient) (req : Request) :
    (handleConnect st amb req).outcome =
      .responded ⟨200, [("status", str "success"),
        ("sessionId", str (generateSessionId amb.now amb.random36)),
        ("server", str "GitHub MCP Server"), ("protocol", str "MCP/2.1"),
        ("message", str "Connection established. Authentication required.")]⟩ ∧
    lookupField "protocol" statusProbe.body = str "MCP/2.1" ∧
    (handleConnect st amb req).calls = [] ∧
    ∃ s : Session,
      (handleConnect st amb req).state.sessions.get
        (str (generateSessionId amb.now amb.random36)) = some s ∧
      s.id = generateSessionId amb.now amb.random36 ∧
      s.status = "connected" ∧ s.authenticated = false ∧ s.user = none ∧
      s.connectedAt = amb.date ∧
      (req.userAgent = none → s.client = "Unknown") ∧
      (req.userAgent = some "" → s.client = "Unknown") ∧
      (∀ ua : String, ua ≠ "" → req.userAgent = some ua → s.client = ua) := by
  refine ⟨rfl, rfl, rfl, ?_⟩
  refine ⟨⟨st.nextRef, generateSessionId amb.now amb.random36, "connected", amb.date, false,
      (match req.userAgent with
        | some ua => if ua != "" then ua else "Unknown"
        | none => "Unknown"), none⟩, ?_, rfl, rfl, rfl, rfl, rfl, ?_, ?_, ?_⟩
  · simp only [handleConnect, SessionMap.get_str]
    exact SessionMap.find_set_self _ _ _
  · intro h
    simp [h]
  · intro h
    simp [h]
  · intro ua hne h
    simp [h, hne]

/-- C8: two connects served in the same millisecond with the same value of the
random source get the same id: the second connect returns the id of a live
session, the store keeps one record, and the record of the first session (client
`supertest`, reference 0) is overwritten by the one of the second. -/
theorem handleConnect_collision :
    (handleConnect State.init testAmbient connectRequest).outcome =
      (handleConnect (handleConnect State.init testAmbient connectRequest).state
        testAmbient connectRequest).outcome ∧
    (handleConnect State.init testAmbient connectRequest).state.sessions.has (str testId)
      = true ∧
    (handleConnect State.init testAmbient connectRequest).state.sessions.length = 1 ∧
    (handleConnect (handleConnect State.init testAmbient connectRequest).state
      testAmbient ⟨none, []⟩).state.sessions.length = 1 ∧
    SessionMap.find testId (handleConnect State.init testAmbient connectRequest).state.sessions =
      some ⟨0, testId, "connected", 1700000000000, false, "supertest", none⟩ ∧
    SessionMap.find testId
      (handleConnect (handleConnect State.init testAmbient connectRequest).state
        testAmbient ⟨none, []⟩).state.sessions =
      some ⟨1, testId, "connected", 1700000000000, false, "Unknown", none⟩ := by
  refine ⟨rfl, by decide, by decide, by decide, rfl, rfl⟩

/-- C9: after a disconnect of a live session id, authenticated or not, the store
has no record for that id: every later command with that id and every later
authenticate with that id is answered with HTTP 401 `Invalid session ID`, invokes
no provider operation and changes nothing. -/
theorem handleDisconnect_removes (st : State) (req : Request) (sid : String) (s : Session)
    (hreach : Reachable st) (hlive : SessionMap.find sid st.sessions = some s)
    (hreq : lookupField "sessionId" req.body = str sid) :
    SessionMap.find sid (handleDisconnect st req).state.sessions = none ∧
    (handleDisconnect st req).state.sessions.has (str sid) = false ∧
    ∀ (P : Provider) (req' : Request), lookupField "sessionId" req'.body = str sid →
      handleCommand P (handleDisconnect st req).state req' =
        ⟨(handleDisconnect st req).state, .responded ⟨401, [("status", str "error"),
          ("message", str "Invalid session ID")]⟩, []⟩ ∧
      handleAuthenticate P (handleDisconnect st req).state req' =
        ⟨(handleDisconnect st req).state, .responded ⟨401, [("status", str "error"),
          ("message", str "Invalid session ID")]⟩, []⟩ := by
  have ht := truthy_of_live hreach hlive
  have hstate : (handleDisconnect st req).state.sessions =
      st.sessions.filter (fun e => e.1 != sid) := by
    simp [handleDisconnect, hreq, ht, SessionMap.has, hlive, SessionMap.delete]
  have hfind : SessionMap.find sid (handleDisconnect st req).state.sessions = none := by
    rw [hstate]
    exact SessionMap.find_filter_self _ _
  have hhas : (handleDisconnect st req).state.sessions.has (str sid) = false := by
    simp [SessionMap.has, hfind]
  refine ⟨hfind, hhas, ?_⟩
  intro P req' hreq'
  have hguard := guard_rejects (Or.inr (Or.inr (hreq'.symm ▸ hhas)) :
    lookupField "sessionId" req'.body = undefined ∨
      (lookupField "sessionId" req'.body).truthy = false ∨
      (handleDisconnect st req).state.sessions.has (lookupField "sessionId" req'.body) = false)
  exact ⟨handleCommand_of_guard P _ req' hguard, handleAuthenticate_of_guard P _ req' hguard⟩

theorem handleDisconnect_removes_witness :
    SessionMap.find testId
      (handleDisconnect authenticatedState (disconnectRequest testId)).state.sessions = none :=
  (handleDisconnect_removes authenticatedState (disconnectRequest testId) testId
    ⟨0, testId, "connected", 1700000000000, true, "supertest", some testUser⟩
    reachable_authenticatedState rfl rfl).1

/-- C10: a disconnect always acknowledges with HTTP 200, status `success`,
message `Disconnected`, for every store and every `sessionId` (present, absent,
missing or falsy) and invokes nothing; when the id is missing, falsy or not in the
store the state is unchanged; and a second disconnect with the same request
leaves the state that the first one left. -/
theorem handleDisconnect_idempotent (st : State) (req : Request) :
    (handleDisconnect st req).outcome =
      .responded ⟨200, [("status", str "success"), ("message", str "Disconnected")]⟩ ∧
    (handleDisconnect st req).calls = [] ∧
    ((lookupField "sessionId" req.body = undefined ∨
        (lookupField "sessionId" req.body).truthy = false ∨
        st.sessions.has (lookupField "sessionId" req.body) = false) →
      (handleDisconnect st req).state = st) ∧
    (handleDisconnect (handleDisconnect st req).state req).state =
      (handleDisconnect st req).state := by
  have hkeep : ∀ st' : State, st'.sessions.has (lookupField "sessionId" req.body) = false →
      (handleDisconnect st' req).state = st' := by
    intro st' h
    simp [handleDisconnect, h]
  refine ⟨rfl, rfl, ?_, ?_⟩
  · intro h
    rcases h with h | h | h
    · simp [handleDisconnect, h, truthy]
    · simp [handleDisconnect, h]
    · exact hkeep st h
  · by_cases hg : ((lookupField "sessionId" req.body).truthy &&
        st.sessions.has (lookupField "sessionId" req.body)) = true
    · apply hkeep
      cases hv : lookupField "sessionId" req.body with
      | str k =>
        rw [hv] at hg
        have hg' : ((str k).truthy && (SessionMap.find k st.sessions).isSome) = true := hg
        simp only [handleDisconnect, hv, SessionMap.delete, SessionMap.has]
        rw [if_pos hg', SessionMap.find_filter_self]
        rfl
      | _ => simp [SessionMap.has]
    · have h1 : (handleDisconnect st req).state = st := by simp [handleDisconnect, hg]
      rw [h1, h1]

theorem handleDisconnect_idempotent_witness :
    (handleDisconnect connectedState (disconnectRequest "non-existent-session")).state =
      connectedState :=
  (handleDisconnect_idempotent connectedState (disconnectRequest "non-existent-session")).2.2.1
    (Or.inr (Or.inr (by decide)))

/-! ## Effect of one request on a lookup -/

theorem find_set (k k₀ : String) (s₀ : Session) (m : SessionMap) :
    SessionMap.find k (SessionMap.set k₀ s₀ m) =
      if k = k₀ then some s₀ else SessionMap.find k m := by
  by_cases h : k = k₀
  · subst h
    simp [SessionMap.find_set_self]
  · simp [h, SessionMap.find_set_of_ne h]

theorem find_filter_some {k k₀ : String} {s : Session} {m : SessionMap}
    (h : SessionMap.find k (m.filter (fun e => e.1 != k₀)) = some s) :
    k ≠ k₀ ∧ SessionMap.find k m = some s := by
  by_cases hk : k = k₀
  · subst hk
    rw [SessionMap.find_filter_self] at h
    cases h
  · rw [SessionMap.find_filter_of_ne hk] at h
    exact ⟨hk, h⟩

/-- Sessions after an authenticate: untouched, or one object mutated by the
success callback. -/
theorem handleAuthenticate_sessions (P : Provider) (st : State) (req : Request) :
    (handleAuthenticate P st req).state.nextRef = st.nextRef ∧
    ((handleAuthenticate P st req).state.sessions = st.sessions ∨
      ∃ (session : Session) (u : User),
        st.sessions.get (lookupField "sessionId" req.body) = some session ∧
        P.verifyToken (lookupField "token" req.body) = .ok u ∧
        (handleAuthenticate P st req).state.sessions =
          st.sessions.mutate session.ref
            (fun s => { s with authenticated := true, user := some u })) := by
  simp only [handleAuthenticate]
  split
  · exact ⟨rfl, Or.inl rfl⟩
  · split
    · exact ⟨rfl, Or.inl rfl⟩
    · rename_i session hget
      cases hv : P.verifyToken (lookupField "token" req.body) with
      | error m => exact ⟨by simp [authenticateSettled], Or.inl (by simp [authenticateSettled])⟩
      | ok u =>
        exact ⟨by simp [authenticateSettled],
          Or.inr ⟨session, u, hget, rfl, by simp [authenticateSettled]⟩⟩

/-- Sessions after a disconnect: untouched, or the entries of one key removed. -/
theorem handleDisconnect_sessions (st : State) (req : Request) :
    (handleDisconnect st req).state.nextRef = st.nextRef ∧
    ((handleDisconnect st req).state.sessions = st.sessions ∨
      ∃ k, lookupField "sessionId" req.body = str k ∧
        (handleDisconnect st req).state.sessions = st.sessions.filter (fun e => e.1 != k)) := by
  refine ⟨rfl, ?_⟩
  simp only [handleDisconnect]
  split
  · cases hv : lookupField "sessionId" req.body with
    | str k => exact Or.inr ⟨k, rfl, rfl⟩
    | _ => exact Or.inl rfl
  · exact Or.inl rfl

/-- A record found after the success callback ran is the image of the record
found before it. -/
theorem find_mutate_some {r : Nat} {u : User} {k : String} {s' : Session} {m : SessionMap}
    (h : SessionMap.find k (SessionMap.mutate r
      (fun s => { s with authenticated := true, user := some u }) m) = some s') :
    ∃ s, SessionMap.find k m = some s ∧
      ((s.ref = r ∧ s' = { s with authenticated := true, user := some u }) ∨
        (s.ref ≠ r ∧ s' = s)) := by
  rw [SessionMap.find_mutate] at h
  cases hf : SessionMap.find k m with
  | none => simp [hf] at h
  | some s =>
    refine ⟨s, rfl, ?_⟩
    simp only [hf, Option.map_some', Option.some.injEq] at h
    by_cases hr : s.ref = r
    · rw [if_pos hr] at h
      exact Or.inl ⟨hr, h.symm⟩
    · rw [if_neg hr] at h
      exact Or.inr ⟨hr, h.symm⟩

/-! ## The record invariant holds in every reachable state -/

theorem inv_init : Inv State.init :=
  ⟨fun k s h => by simp [State.init, SessionMap.find] at h,
   fun k s h => by simp [State.init, SessionMap.find] at h,
   fun k₁ k₂ s₁ s₂ h => by simp [State.init, SessionMap.find] at h⟩

theorem inv_connect {st : State} (h : Inv st) (amb : Ambient) (req : Request) :
    Inv (handleConnect st amb req).state := by
  constructor
  · intro k s hk ha
    simp only [handleConnect, find_set] at hk
    split at hk
    · cases hk
      cases ha
    · exact h.user_of_auth k s hk ha
  · intro k s hk
    simp only [handleConnect, find_set] at hk
    simp only [handleConnect]
    split at hk
    · cases hk
      exact Nat.lt_succ_self _
    · exact Nat.lt_succ_of_lt (h.ref_lt k s hk)
  · intro k₁ k₂ s₁ s₂ h₁ h₂ hr
    simp only [handleConnect, find_set] at h₁ h₂
    split at h₁ <;> split at h₂
    · rename_i e₁ e₂
      rw [e₁, e₂]
    · cases h₁
      have := h.ref_lt k₂ s₂ h₂
      simp only at hr
      omega
    · cases h₂
      have := h.ref_lt k₁ s₁ h₁
      simp only at hr
      omega
    · exact h.ref_inj k₁ k₂ s₁ s₂ h₁ h₂ hr

theorem inv_mutate {st : State} (h : Inv st) (r : Nat) (u : User) :
    Inv ⟨st.sessions.mutate r (fun s => { s with authenticated := true, user := some u }),
      st.nextRef⟩ := by
  constructor
  · intro k s' hk ha
    obtain ⟨s, hs, hcase⟩ := find_mutate_some hk
    rcases hcase with ⟨_, rfl⟩ | ⟨_, rfl⟩
    · exact ⟨u, rfl⟩
    · exact h.user_of_auth k _ hs ha
  · intro k s' hk
    obtain ⟨s, hs, hcase⟩ := find_mutate_some hk
    rcases hcase with ⟨_, rfl⟩ | ⟨_, rfl⟩
    · exact h.ref_lt k s hs
    · exact h.ref_lt k _ hs
  · intro k₁ k₂ s₁' s₂' h₁ h₂ hr
    obtain ⟨s₁, hs₁, hc₁⟩ := find_mutate_some h₁
    obtain ⟨s₂, hs₂, hc₂⟩ := find_mutate_some h₂
    have e₁ : s₁'.ref = s₁.ref := by rcases hc₁ with ⟨_, rfl⟩ | ⟨_, rfl⟩ <;> rfl
    have e₂ : s₂'.ref = s₂.ref := by rcases hc₂ with ⟨_, rfl⟩ | ⟨_, rfl⟩ <;> rfl
    exact h.ref_inj k₁ k₂ s₁ s₂ hs₁ hs₂ (by rw [← e₁, ← e₂]; exact hr)

theorem inv_filter {st : State} (h : Inv st) (k₀ : String) :
    Inv ⟨st.sessions.filter (fun e => e.1 != k₀), st.nextRef⟩ :=
  ⟨fun k s hk ha => h.user_of_auth k s (find_filter_some hk).2 ha,
   fun k s hk => h.ref_lt k s (find_filter_some hk).2,
   fun k₁ k₂ s₁ s₂ h₁ h₂ hr =>
     h.ref_inj k₁ k₂ s₁ s₂ (find_filter_some h₁).2 (find_filter_some h₂).2 hr⟩

theorem inv_of_sessions_eq {st st' : State} (h : Inv st) (hs : st'.sessions = st.sessions)
    (hn : st'.nextRef = st.nextRef) : Inv st' := by
  cases st
  cases st'
  simp only at hs hn
  subst hs
  subst hn
  exact h

theorem inv_step {st : State} (op : Op) (h : Inv st) : Inv (step st op).state := by
  cases op with
  | connect amb req => exact inv_connect h amb req
  | authenticate P req =>
    obtain ⟨hn, hs | ⟨session, u, _, _, hs⟩⟩ := handleAuthenticate_sessions P st req
    · exact inv_of_sessions_eq h hs hn
    · exact inv_of_sessions_eq (inv_mutate h session.ref u) hs hn
  | command P req =>
    simp only [step, handleCommand_state]
    exact h
  | disconnect req =>
    obtain ⟨hn, hs | ⟨k, _, hs⟩⟩ := handleDisconnect_sessions st req
    · exact inv_of_sessions_eq h hs hn
    · exact inv_of_sessions_eq (inv_filter h k) hs hn

theorem inv_of_reachable {st : State} (h : Reachable st) : Inv st := by
  induction h with
  | init => exact inv_init
  | step op _ ih => exact inv_step op ih

/-! ## Dispatch of the registered commands -/

/-- On an authenticated live session with user `u`, and with parameters that can
be destructured, each registered command runs its handler: one call of its
provider operation with `u.token`, answered by the callbacks of that handler. -/
theorem handleCommand_registered (P : Provider) {st : State} {req : Request} {sid : String}
    {s : Session} {u : User} (hreach : Reachable st)
    (hlive : SessionMap.find sid st.sessions = some s) (hauth : s.authenticated = true)
    (huser : s.user = some u) (hreq : lookupField "sessionId" req.body = str sid)
    (hpar : (lookupField "parameters" req.body).isNullish = false) :
    (lookupField "command" req.body = str "CREATE_REPOSITORY" →
      handleCommand P st req =
        ⟨st, settleWithData "Repository created" "Failed to create repository" "name"
          repositoryData
          (P.createRepository u.token (repositoryArgs (lookupField "parameters" req.body))),
         [.createRepository u.token (repositoryArgs (lookupField "parameters" req.body))]⟩) ∧
    (lookupField "command" req.body = str "PUSH_FILES" →
      handleCommand P st req =
        ⟨st, (match P.pushFiles u.token (pushArgs (lookupField "parameters" req.body)) with
          | .ok _ => .responded ⟨200,
              [("status", str "success"), ("message", str "Files pushed successfully")]⟩
          | .error m => .responded ⟨500, providerErrorBody "Failed to push files" m⟩),
         [.pushFiles u.token (pushArgs (lookupField "parameters" req.body))]⟩) ∧
    (lookupField "command" req.body = str "CREATE_ISSUE" →
      handleCommand P st req =
        ⟨st, settleWithData "Issue created" "Failed to create issue" "number" numberedData
          (P.createIssue u.token (issueArgs (lookupField "parameters" req.body))),
         [.createIssue u.token (issueArgs (lookupField "parameters" req.body))]⟩) ∧
    (lookupField "command" req.body = str "CREATE_PULL_REQUEST" →
      handleCommand P st req =
        ⟨st, settleWithData "Pull request created" "Failed to create pull request" "number"
          numberedData
          (P.createPullRequest u.token (pullRequestArgs (lookupField "parameters" req.body))),
         [.createPullRequest u.token
           (pullRequestArgs (lookupField "parameters" req.body))]⟩) := by
  have ht := truthy_of_live hreach hlive
  refine ⟨?_, ?_, ?_, ?_⟩ <;> intro hc
  · simp [handleCommand, hreq, ht, SessionMap.has, SessionMap.get, hlive, hauth, hc,
      handleCreateRepository, hpar, huser, repositoryArgs, toJsString]
  · simp [handleCommand, hreq, ht, SessionMap.has, SessionMap.get, hlive, hauth, hc,
      handlePushFiles, hpar, huser, pushArgs, toJsString]
  · simp [handleCommand, hreq, ht, SessionMap.has, SessionMap.get, hlive, hauth, hc,
      handleCreateIssue, hpar, huser, issueArgs, toJsString]
  · simp [handleCommand, hreq, ht, SessionMap.has, SessionMap.get, hlive, hauth, hc,
      handleCreatePullRequest, hpar, huser, pullRequestArgs, toJsString]

/-- With parameters that can be destructured, a registered command on an
authenticated live session always produces a response, of HTTP 200 or 500. -/
theorem handleCommand_closed_outcomes (P : Provider) {st : State} {req : Request}
    {sid : String} {s : Session} (hreach : Reachable st)
    (hlive : SessionMap.find sid st.sessions = some s) (hauth : s.authenticated = true)
    (hreq : lookupField "sessionId" req.body = str sid)
    (hpar : (lookupField "parameters" req.body).isNullish = false)
    (hc : lookupField "command" req.body = str "CREATE_REPOSITORY" ∨
      lookupField "command" req.body = str "PUSH_FILES" ∨
      lookupField "command" req.body = str "CREATE_ISSUE" ∨
      lookupField "command" req.body = str "CREATE_PULL_REQUEST") :
    ∃ r, (handleCommand P st req).outcome = .responded r ∧ (r.code = 200 ∨ r.code = 500) := by
  obtain ⟨u, hu⟩ := (inv_of_reachable hreach).user_of_auth sid s hlive hauth
  obtain ⟨h₁, h₂, h₃, h₄⟩ := handleCommand_registered P hreach hlive hauth hu hreq hpar
  have hsettle : ∀ (a b c : String) (shape : JVal → JVal) (x : Except String JVal),
      ∃ r, settleWithData a b c shape x = .responded r ∧ (r.code = 200 ∨ r.code = 500) := by
    intro a b c shape x
    unfold settleWithData
    split
    · split
      · exact ⟨_, rfl, Or.inr rfl⟩
      · exact ⟨_, rfl, Or.inl rfl⟩
    · exact ⟨_, rfl, Or.inr rfl⟩
  rcases hc with hc | hc | hc | hc
  · rw [h₁ hc]
    exact hsettle _ _ _ _ _
  · rw [h₂ hc]
    simp only
    split
    · exact ⟨_, rfl, Or.inl rfl⟩
    · exact ⟨_, rfl, Or.inr rfl⟩
  · rw [h₃ hc]
    exact hsettle _ _ _ _ _
  · rw [h₄ hc]
    exact hsettle _ _ _ _ _

/-- Record found under `sid` after a successful authenticate on `sid`. -/
theorem find_after_accept {st : State} {req : Request} {sid : String} {s : Session}
    {u : User} (P : Provider) (hreach : Reachable st)
    (hlive : SessionMap.find sid st.sessions = some s)
    (hreq : lookupField "sessionId" req.body = str sid)
    (hacc : P.verifyToken (lookupField "token" req.body) = .ok u) :
    handleAuthenticate P st req =
      ⟨⟨st.sessions.mutate s.ref (fun x => { x with authenticated := true, user := some u }),
        st.nextRef⟩,
       .responded ⟨200, [("status", str "success"),
         ("message", str "Authentication successful"), ("user", str u.login),
         ("accessLevel", str "admin")]⟩,
       [.verifyToken (lookupField "token" req.body)]⟩ ∧
    SessionMap.find sid (handleAuthenticate P st req).state.sessions =
      some { s with authenticated := true, user := some u } := by
  have ht := truthy_of_live hreach hlive
  have main : handleAuthenticate P st req =
      ⟨⟨st.sessions.mutate s.ref (fun x => { x with authenticated := true, user := some u }),
        st.nextRef⟩,
       .responded ⟨200, [("status", str "success"),
         ("message", str "Authentication successful"), ("user", str u.login),
         ("accessLevel", str "admin")]⟩,
       [.verifyToken (lookupField "token" req.body)]⟩ := by
    simp [handleAuthenticate, hreq, ht, SessionMap.has, SessionMap.get, hlive, hacc,
      authenticateSettled]
  refine ⟨main, ?_⟩
  rw [main]
  simp [SessionMap.find_mutate, hlive]

/-! ## Claims on dispatch and authentication -/

/-- C11: on an authenticated live session, a `PUSH_FILES` command that carries
no `parameters` and a `CREATE_ISSUE` command whose `parameters` is `null` invoke no
provider operation: the handler throws while destructuring, before the call, and
sends no response. -/
theorem handleCommand_no_call_without_parameters :
    handleCommand testProvider authenticatedState barePushRequest =
      ⟨authenticatedState,
       .threw "Cannot destructure property \x27owner\x27 of \x27parameters\x27 as it is undefined.",
       []⟩ ∧
    (handleCommand testProvider authenticatedState barePushRequest).calls = [] ∧
    handleCommand testProvider authenticatedState nullIssueRequest =
      ⟨authenticatedState,
       .threw "Cannot destructure property \x27owner\x27 of \x27parameters\x27 as it is null.",
       []⟩ ∧
    (handleCommand testProvider authenticatedState nullIssueRequest).calls = [] := by
  refine ⟨rfl, rfl, rfl, rfl⟩

/-- With parameters that can be destructured, a registered command on an
authenticated live session invokes exactly its own provider operation, once, with
the token of the session user, and leaves the state alone; when that operation
resolves with a value `r` whose properties can be read, the response is HTTP 200
with status `success` and the declared shape: `data` with `name` and `url` (from
`r.html_url`) for the repository command, `data` with `number` and `url` for the
issue and pull-request commands, status and message only for `PUSH_FILES`. -/
theorem handleCommand_dispatches (P : Provider) (st : State) (req : Request) (sid : String)
    (s : Session) (hreach : Reachable st)
    (hlive : SessionMap.find sid st.sessions = some s) (hauth : s.authenticated = true)
    (hreq : lookupField "sessionId" req.body = str sid)
    (hpar : (lookupField "parameters" req.body).isNullish = false) :
    ∃ u, s.user = some u ∧
    (lookupField "command" req.body = str "CREATE_REPOSITORY" →
      (handleCommand P st req).calls =
        [.createRepository u.token (repositoryArgs (lookupField "parameters" req.body))] ∧
      (handleCommand P st req).state = st ∧
      ∀ r, P.createRepository u.token (repositoryArgs (lookupField "parameters" req.body))
          = .ok r → r.isNullish = false →
        (handleCommand P st req).outcome =
          .responded ⟨200, [("status", str "success"), ("message", str "Repository created"),
            ("data", obj [("name", r.getField "name"), ("url", r.getField "html_url")])]⟩) ∧
    (lookupField "command" req.body = str "PUSH_FILES" →
      (handleCommand P st req).calls =
        [.pushFiles u.token (pushArgs (lookupField "parameters" req.body))] ∧
      (handleCommand P st req).state = st ∧
      ∀ r, P.pushFiles u.token (pushArgs (lookupField "parameters" req.body)) = .ok r →
        (handleCommand P st req).outcome =
          .responded ⟨200, [("status", str "success"),
            ("message", str "Files pushed successfully")]⟩) ∧
    (lookupField "command" req.body = str "CREATE_ISSUE" →
      (handleCommand P st req).calls =
        [.createIssue u.token (issueArgs (lookupField "parameters" req.body))] ∧
      (handleCommand P st req).state = st ∧
      ∀ r, P.createIssue u.token (issueArgs (lookupField "parameters" req.body)) = .ok r →
        r.isNullish = false →
        (handleCommand P st req).outcome =
          .responded ⟨200, [("status", str "success"), ("message", str "Issue created"),
            ("data", obj [("number", r.getField "number"),
              ("url", r.getField "html_url")])]⟩) ∧
    (lookupField "command" req.body = str "CREATE_PULL_REQUEST" →
      (handleCommand P st req).calls =
        [.createPullRequest u.token (pullRequestArgs (lookupField "parameters" req.body))] ∧
      (handleCommand P st req).state = st ∧
      ∀ r, P.createPullRequest u.token (pullRequestArgs (lookupField "parameters" req.body))
          = .ok r → r.isNullish = false →
        (handleCommand P st req).outcome =
          .responded ⟨200, [("status", str "success"), ("message", str "Pull request created"),
            ("data", obj [("number", r.getField "number"),
              ("url", r.getField "html_url")])]⟩) := by
  obtain ⟨u, hu⟩ := (inv_of_reachable hreach).user_of_auth sid s hlive hauth
  obtain ⟨h₁, h₂, h₃, h₄⟩ := handleCommand_registered P hreach hlive hauth hu hreq hpar
  refine ⟨u, hu, ?_, ?_, ?_, ?_⟩ <;> intro hc
  · rw [h₁ hc]
    refine ⟨rfl, rfl, ?_⟩
    intro r hr hn
    simp [settleWithData, hr, hn, repositoryData]
  · rw [h₂ hc]
    refine ⟨rfl, rfl, ?_⟩
    intro r hr
    simp [hr]
  · rw [h₃ hc]
    refine ⟨rfl, rfl, ?_⟩
    intro r hr hn
    simp [settleWithData, hr, hn, numberedData]
  · rw [h₄ hc]
    refine ⟨rfl, rfl, ?_⟩
    intro r hr hn
    simp [settleWithData, hr, hn, numberedData]

theorem handleCommand_dispatches_witness :
    (handleCommand testProvider authenticatedState repositoryRequest).calls =
      [.createRepository (str "valid_token")
        (repositoryArgs (lookupField "parameters" repositoryRequest.body))] ∧
    (handleCommand testProvider authenticatedState repositoryRequest).outcome =
      .responded ⟨200, [("status", str "success"), ("message", str "Repository created"),
        ("data", obj [("name", str "test-repo"),
          ("url", str "https://github.com/testuser/test-repo")])]⟩ := by
  obtain ⟨u, hu, h₁, _⟩ := handleCommand_dispatches testProvider authenticatedState
    repositoryRequest testId authenticatedRecord reachable_authenticatedState rfl rfl rfl rfl
  cases hu
  exact ⟨(h₁ rfl).1, (h₁ rfl).2.2 _ rfl rfl⟩

/-- C12: on an authenticated live session, when the provider operation of a
registered command (parameters destructurable) rejects with an error of message
`m`, the response is HTTP 500 with status `error`, the failure message of the
command and `error` equal to `m`; the operation was invoked once and the state,
hence the session store, is the one before the call. -/
theorem handleCommand_provider_error (P : Provider) (st : State) (req : Request)
    (sid : String) (s : Session) (m : String) (hreach : Reachable st)
    (hlive : SessionMap.find sid st.sessions = some s) (hauth : s.authenticated = true)
    (hreq : lookupField "sessionId" req.body = str sid)
    (hpar : (lookupField "parameters" req.body).isNullish = false) :
    ∃ u, s.user = some u ∧
    (lookupField "command" req.body = str "CREATE_REPOSITORY" →
      P.createRepository u.token (repositoryArgs (lookupField "parameters" req.body))
        = .error m →
      handleCommand P st req =
        ⟨st, .responded ⟨500, [("status", str "error"),
          ("message", str "Failed to create repository"), ("error", str m)]⟩,
         [.createRepository u.token (repositoryArgs (lookupField "parameters" req.body))]⟩) ∧
    (lookupField "command" req.body = str "PUSH_FILES" →
      P.pushFiles u.token (pushArgs (lookupField "parameters" req.body)) = .error m →
      handleCommand P st req =
        ⟨st, .responded ⟨500, [("status", str "error"),
          ("message", str "Failed to push files"), ("error", str m)]⟩,
         [.pushFiles u.token (pushArgs (lookupField "parameters" req.body))]⟩) ∧
    (lookupField "command" req.body = str "CREATE_ISSUE" →
      P.createIssue u.token (issueArgs (lookupField "parameters" req.body)) = .error m →
      handleCommand P st req =
        ⟨st, .responded ⟨500, [("status", str "error"),
          ("message", str "Failed to create issue"), ("error", str m)]⟩,
         [.createIssue u.token (issueArgs (lookupField "parameters" req.body))]⟩) ∧
    (lookupField "command" req.body = str "CREATE_PULL_REQUEST" →
      P.createPullRequest u.token (pullRequestArgs (lookupField "parameters" req.body))
        = .error m →
      handleCommand P st req =
        ⟨st, .responded ⟨500, [("status", str "error"),
          ("message", str "Failed to create pull request"), ("error", str m)]⟩,
         [.createPullRequest u.token
           (pullRequestArgs (lookupField "parameters" req.body))]⟩) := by
  obtain ⟨u, hu⟩ := (inv_of_reachable hreach).user_of_auth sid s hlive hauth
  obtain ⟨h₁, h₂, h₃, h₄⟩ := handleCommand_registered P hreach hlive hauth hu hreq hpar
  refine ⟨u, hu, ?_, ?_, ?_, ?_⟩ <;> intro hc hr
  · rw [h₁ hc]
    simp [settleWithData, hr, providerErrorBody]
  · rw [h₂ hc]
    simp [hr, providerErrorBody]
  · rw [h₃ hc]
    simp [settleWithData, hr, providerErrorBody]
  · rw [h₄ hc]
    simp [settleWithData, hr, providerErrorBody]

theorem handleCommand_provider_error_witness :
    handleCommand failingProvider authenticatedState repositoryRequest =
      ⟨authenticatedState, .responded ⟨500, [("status", str "error"),
        ("message", str "Failed to create repository"),
        ("error", str "name already exists on this account")]⟩,
       [.createRepository (str "valid_token")
         (repositoryArgs (lookupField "parameters" repositoryRequest.body))]⟩ := by
  obtain ⟨u, hu, h₁, _⟩ := handleCommand_provider_error failingProvider authenticatedState
    repositoryRequest testId authenticatedRecord "name already exists on this account"
    reachable_authenticatedState rfl rfl rfl rfl
  cases hu
  exact h₁ rfl rfl

/-- C13: a second successful authenticate on a session answers with success and
replaces the whole user (login, id, name and token) that the first one attached;
every registered command dispatched afterwards passes the token of the second
user to its provider operation, in its single call. -/
theorem reauthenticate_replaces_identity (P₁ P₂ P : Provider) (st : State)
    (req₁ req₂ req : Request) (sid : String) (s : Session) (u₁ u₂ : User)
    (hreach : Reachable st) (hlive : SessionMap.find sid st.sessions = some s)
    (hreq₁ : lookupField "sessionId" req₁.body = str sid)
    (hreq₂ : lookupField "sessionId" req₂.body = str sid)
    (hreq : lookupField "sessionId" req.body = str sid)
    (hacc₁ : P₁.verifyToken (lookupField "token" req₁.body) = .ok u₁)
    (hacc₂ : P₂.verifyToken (lookupField "token" req₂.body) = .ok u₂)
    (hpar : (lookupField "parameters" req.body).isNullish = false) :
    SessionMap.find sid (handleAuthenticate P₁ st req₁).state.sessions =
      some { s with authenticated := true, user := some u₁ } ∧
    (handleAuthenticate P₂ (handleAuthenticate P₁ st req₁).state req₂).outcome =
      .responded ⟨200, [("status", str "success"),
        ("message", str "Authentication successful"), ("user", str u₂.login),
        ("accessLevel", str "admin")]⟩ ∧
    SessionMap.find sid
        (handleAuthenticate P₂ (handleAuthenticate P₁ st req₁).state req₂).state.sessions =
      some { s with authenticated := true, user := some u₂ } ∧
    (lookupField "command" req.body = str "CREATE_REPOSITORY" →
      (handleCommand P (handleAuthenticate P₂ (handleAuthenticate P₁ st req₁).state req₂).state
        req).calls =
        [.createRepository u₂.token (repositoryArgs (lookupField "parameters" req.body))]) ∧
    (lookupField "command" req.body = str "PUSH_FILES" →
      (handleCommand P (handleAuthenticate P₂ (handleAuthenticate P₁ st req₁).state req₂).state
        req).calls =
        [.pushFiles u₂.token (pushArgs (lookupField "parameters" req.body))]) ∧
    (lookupField "command" req.body = str "CREATE_ISSUE" →
      (handleCommand P (handleAuthenticate P₂ (handleAuthenticate P₁ st req₁).state req₂).state
        req).calls =
        [.createIssue u₂.token (issueArgs (lookupField "parameters" req.body))]) ∧
    (lookupField "command" req.body = str "CREATE_PULL_REQUEST" →
      (handleCommand P (handleAuthenticate P₂ (handleAuthenticate P₁ st req₁).state req₂).state
        req).calls =
        [.createPullRequest u₂.token
          (pullRequestArgs (lookupField "parameters" req.body))]) := by
  have hfirst := (find_after_accept P₁ hreach hlive hreq₁ hacc₁).2
  have hreach₁ : Reachable (handleAuthenticate P₁ st req₁).state :=
    Reachable.step (.authenticate P₁ req₁) hreach
  obtain ⟨hsecond, hfind⟩ := find_after_accept P₂ hreach₁ hfirst hreq₂ hacc₂
  have hreach₂ :
      Reachable (handleAuthenticate P₂ (handleAuthenticate P₁ st req₁).state req₂).state :=
    Reachable.step (.authenticate P₂ req₂) hreach₁
  obtain ⟨h₁, h₂, h₃, h₄⟩ :=
    handleCommand_registered P (u := u₂) hreach₂ hfind rfl rfl hreq hpar
  refine ⟨hfirst, ?_, hfind, ?_, ?_, ?_, ?_⟩
  · rw [hsecond]
  · intro hc
    rw [h₁ hc]
  · intro hc
    rw [h₂ hc]
  · intro hc
    rw [h₃ hc]
  · intro hc
    rw [h₄ hc]

theorem reauthenticate_replaces_identity_witness :
    (handleCommand testProvider
      (handleAuthenticate otherProvider authenticatedState
        (authenticateRequest "other_token")).state repositoryRequest).calls =
      [.createRepository (str "other_token")
        (repositoryArgs (lookupField "parameters" repositoryRequest.body))] :=
  (reauthenticate_replaces_identity testProvider otherProvider testProvider connectedState
    (authenticateRequest "valid_token") (authenticateRequest "other_token")
    repositoryRequest testId connectedRecord testUser otherUser
    reachable_connectedState rfl rfl rfl rfl rfl rfl rfl).2.2.2.1 rfl

/-- C14: on a live session, an authenticate whose token the verifier accepts
with identity `u` answers HTTP 200 with status `success`, `user` equal to
`u.login` and `accessLevel` equal to `admin`, whatever `u` is, after one call of
the verifier; afterwards the record of the session is the old one with
`authenticated` true and `user` set to `u`. -/
theorem handleAuthenticate_accepted (P : Provider) (st : State) (req : Request)
    (sid : String) (s : Session) (u : User) (hreach : Reachable st)
    (hlive : SessionMap.find sid st.sessions = some s)
    (hreq : lookupField "sessionId" req.body = str sid)
    (hacc : P.verifyToken (lookupField "token" req.body) = .ok u) :
    (handleAuthenticate P st req).outcome =
      .responded ⟨200, [("status", str "success"),
        ("message", str "Authentication successful"), ("user", str u.login),
        ("accessLevel", str "admin")]⟩ ∧
    (handleAuthenticate P st req).calls = [.verifyToken (lookupField "token" req.body)] ∧
    ∃ s', SessionMap.find sid (handleAuthenticate P st req).state.sessions = some s' ∧
      s'.authenticated = true ∧ s'.user = some u ∧
      s' = { s with authenticated := true, user := some u } := by
  obtain ⟨hmain, hfind⟩ := find_after_accept P hreach hlive hreq hacc
  refine ⟨by rw [hmain], by rw [hmain], _, hfind, rfl, rfl, rfl⟩

theorem handleAuthenticate_accepted_witness :
    (handleAuthenticate testProvider connectedState (authenticateRequest "valid_token")).outcome =
      .responded ⟨200, [("status", str "success"),
        ("message", str "Authentication successful"), ("user", str "testuser"),
        ("accessLevel", str "admin")]⟩ :=
  (handleAuthenticate_accepted testProvider connectedState (authenticateRequest "valid_token")
    testId connectedRecord testUser reachable_connectedState rfl rfl rfl).1

/-! ## Frame lemmas -/

theorem sameFrame_refl (s : Session) : Session.sameFrame s s :=
  ⟨rfl, rfl, rfl, rfl, rfl⟩

theorem sameFrame_trans {a b c : Session} (h₁ : Session.sameFrame a b)
    (h₂ : Session.sameFrame b c) : Session.sameFrame a c :=
  ⟨h₂.1.trans h₁.1, h₂.2.1.trans h₁.2.1, h₂.2.2.1.trans h₁.2.2.1,
    h₂.2.2.2.1.trans h₁.2.2.2.1, h₂.2.2.2.2.trans h₁.2.2.2.2⟩

/-- An authenticate keeps every key, and changes a record at most by setting
`authenticated` to true together with a user. -/
theorem find_after_authenticate (P : Provider) (st : State) (req : Request) {k : String}
    {s : Session} (hs : SessionMap.find k st.sessions = some s) :
    ∃ s', SessionMap.find k (handleAuthenticate P st req).state.sessions = some s' ∧
      (s' = s ∨ ∃ u, s' = { s with authenticated := true, user := some u }) := by
  obtain ⟨_, h | ⟨session, u, _, _, h⟩⟩ := handleAuthenticate_sessions P st req
  · exact ⟨s, by rw [h]; exact hs, Or.inl rfl⟩
  · rw [h, SessionMap.find_mutate, hs]
    by_cases hr : s.ref = session.ref
    · exact ⟨_, by simp [hr], Or.inr ⟨u, rfl⟩⟩
    · exact ⟨s, by simp [hr], Or.inl rfl⟩

theorem sameFrame_step {st : State} {k : String} {s : Session} (op : Op)
    (hop : op.isAuthenticateOrCommand = true)
    (hs : SessionMap.find k st.sessions = some s) :
    ∃ s', SessionMap.find k (step st op).state.sessions = some s' ∧
      Session.sameFrame s s' := by
  cases op with
  | connect amb req => simp [Op.isAuthenticateOrCommand] at hop
  | disconnect req => simp [Op.isAuthenticateOrCommand] at hop
  | command P req =>
    simp only [step, handleCommand_state]
    exact ⟨s, hs, sameFrame_refl s⟩
  | authenticate P req =>
    obtain ⟨s', hs', h | ⟨u, h⟩⟩ := find_after_authenticate P st req hs
    · exact ⟨s', hs', h ▸ sameFrame_refl s⟩
    · exact ⟨s', hs', h ▸ ⟨rfl, rfl, rfl, rfl, rfl⟩⟩

theorem sameFrame_run {k : String} (ops : List Op) :
    ∀ {st : State} {s : Session}, SessionMap.find k st.sessions = some s →
      (∀ op ∈ ops, op.isAuthenticateOrCommand = true) →
      ∃ s', SessionMap.find k (run st ops).sessions = some s' ∧ Session.sameFrame s s' := by
  induction ops with
  | nil => intro st s hs _; exact ⟨s, hs, sameFrame_refl s⟩
  | cons op ops ih =>
    intro st s hs hops
    obtain ⟨s₁, hs₁, hf₁⟩ := sameFrame_step op (hops op (List.mem_cons_self _ _)) hs
    obtain ⟨s₂, hs₂, hf₂⟩ := ih hs₁ (fun o ho => hops o (List.mem_cons_of_mem _ ho))
    exact ⟨s₂, hs₂, sameFrame_trans hf₁ hf₂⟩

/-- C15: after a connect and any sequence of authenticates (accepted or
rejected) and commands, the record of the session is still stored under the id
the connect returned, its `id` is that key and its `connectedAt`, `client`, status
string and object are the ones `handleConnect` set; and a single authenticate
leaves a record as it was or changes only `authenticated` and `user`. -/
theorem session_frame_immutable (st : State) (amb : Ambient) (req₀ : Request)
    (ops : List Op) (hops : ∀ op ∈ ops, op.isAuthenticateOrCommand = true) :
    (∃ s', SessionMap.find (generateSessionId amb.now amb.random36)
        (run (handleConnect st amb req₀).state ops).sessions = some s' ∧
      s'.id = generateSessionId amb.now amb.random36 ∧ s'.connectedAt = amb.date ∧
      s'.client = clientOf req₀ ∧ s'.status = "connected" ∧ s'.ref = st.nextRef) ∧
    ∀ (P : Provider) (st₀ : State) (req : Request) (k : String) (s : Session),
      SessionMap.find k st₀.sessions = some s →
      ∃ s', SessionMap.find k (handleAuthenticate P st₀ req).state.sessions = some s' ∧
        (s' = s ∨ ∃ u, s' = { s with authenticated := true, user := some u }) := by
  constructor
  · have h₀ : SessionMap.find (generateSessionId amb.now amb.random36)
        (handleConnect st amb req₀).state.sessions =
        some ⟨st.nextRef, generateSessionId amb.now amb.random36, "connected", amb.date,
          false, clientOf req₀, none⟩ := by
      simp only [handleConnect]
      exact SessionMap.find_set_self _ _ _
    obtain ⟨s', hs', hf⟩ := sameFrame_run ops h₀ hops
    exact ⟨s', hs', hf.2.1, hf.2.2.2.1, hf.2.2.2.2, hf.2.2.1, hf.1⟩
  · intro P st₀ req k s hs
    exact find_after_authenticate P st₀ req hs

theorem session_frame_immutable_witness :
    ∃ s', SessionMap.find testId
        (run (handleConnect State.init testAmbient connectRequest).state
          [.authenticate testProvider (authenticateRequest "invalid_token"),
           .authenticate testProvider (authenticateRequest "valid_token"),
           .command testProvider repositoryRequest]).sessions = some s' ∧
      s'.id = testId ∧ s'.connectedAt = 1700000000000 ∧
      s'.client = "supertest" ∧ s'.status = "connected" ∧ s'.ref = 0 :=
  (session_frame_immutable State.init testAmbient connectRequest
    [.authenticate testProvider (authenticateRequest "invalid_token"),
     .authenticate testProvider (authenticateRequest "valid_token"),
     .command testProvider repositoryRequest]
    (by intro op hop; simp at hop; rcases hop with rfl | rfl | rfl <;> rfl)).1

/-- C16: a request whose `sessionId` is not `B` leaves the record of a live
session `B` as it was, whether the request is an authenticate, a command or a
disconnect, whether it succeeds or fails and whether or not its own id is live. -/
theorem other_session_untouched (P : Provider) (st : State) (req : Request) (B : String)
    (sB : Session) (hreach : Reachable st)
    (hB : SessionMap.find B st.sessions = some sB)
    (hA : lookupField "sessionId" req.body ≠ str B) :
    SessionMap.find B (handleAuthenticate P st req).state.sessions = some sB ∧
    SessionMap.find B (handleCommand P st req).state.sessions = some sB ∧
    SessionMap.find B (handleDisconnect st req).state.sessions = some sB := by
  refine ⟨?_, ?_, ?_⟩
  · obtain ⟨_, h | ⟨session, u, hget, _, h⟩⟩ := handleAuthenticate_sessions P st req
    · rw [h]
      exact hB
    · rw [h, SessionMap.find_mutate, hB]
      cases hv : lookupField "sessionId" req.body with
      | str A =>
        rw [hv, SessionMap.get_str] at hget
        have hne : sB.ref ≠ session.ref := by
          intro hr
          have := (inv_of_reachable hreach).ref_inj B A sB session hB hget hr
          exact hA (by rw [hv, this])
        simp [hne]
      | _ => simp [hv, SessionMap.get] at hget
  · rw [handleCommand_state]
    exact hB
  · obtain ⟨_, h | ⟨k, hk, h⟩⟩ := handleDisconnect_sessions st req
    · rw [h]
      exact hB
    · have hne : B ≠ k := fun e => hA (by rw [hk, e])
      rw [h, SessionMap.find_filter_of_ne hne]
      exact hB

theorem reachable_twoSessionsState : Reachable twoSessionsState :=
  Reachable.step _ reachable_connectedState

theorem other_session_untouched_witness :
    SessionMap.find secondId
      (handleAuthenticate testProvider twoSessionsState
        (authenticateRequest "valid_token")).state.sessions = some secondRecord :=
  (other_session_untouched testProvider twoSessionsState (authenticateRequest "valid_token")
    secondId secondRecord reachable_twoSessionsState rfl
    (by simp [authenticateRequest, lookupField, testId, secondId])).1

/-! ## The response envelope -/

theorem envelope_plain_error {code : Nat} {msg : String}
    (hc : code = 400 ∨ code = 401 ∨ code = 403) :
    Envelope ⟨code, [("status", str "error"), ("message", str msg)]⟩ :=
  ⟨⟨msg, by simp [lookupField]⟩,
    Or.inr (Or.inl ⟨by simp [lookupField], hc, by simp [hasField]⟩)⟩

theorem envelope_providerError (failure m : String) :
    Envelope ⟨500, providerErrorBody failure m⟩ :=
  ⟨⟨failure, by simp [providerErrorBody, lookupField]⟩,
    Or.inr (Or.inr ⟨by simp [providerErrorBody, lookupField], rfl,
      ⟨m, by simp [providerErrorBody, lookupField]⟩⟩)⟩

theorem envelope_settleWithData {success failure firstKey : String} {shape : JVal → JVal}
    {settled : Except String JVal} {r : Response}
    (h : settleWithData success failure firstKey shape settled = .responded r) :
    Envelope r := by
  unfold settleWithData at h
  split at h
  · split at h
    · cases h
      exact envelope_providerError _ _
    · cases h
      exact ⟨⟨success, by simp [lookupField]⟩,
        Or.inl ⟨by simp [lookupField], rfl, by simp [hasField]⟩⟩
  · cases h
    exact envelope_providerError _ _

theorem envelope_handleCreateRepository {P : Provider} {session : Session}
    {parameters : JVal} {r : Response}
    (h : (handleCreateRepository P session parameters).1 = .responded r) : Envelope r := by
  unfold handleCreateRepository at h
  split at h
  · cases h
  · split at h
    · cases h
    · exact envelope_settleWithData h

theorem envelope_handlePushFiles {P : Provider} {session : Session}
    {parameters : JVal} {r : Response}
    (h : (handlePushFiles P session parameters).1 = .responded r) : Envelope r := by
  unfold handlePushFiles at h
  split at h
  · cases h
  · split at h
    · cases h
    · simp only at h
      split at h
      · cases h
        exact ⟨⟨"Files pushed successfully", by simp [lookupField]⟩,
          Or.inl ⟨by simp [lookupField], rfl, by simp [hasField]⟩⟩
      · cases h
        exact envelope_providerError _ _

theorem envelope_handleCreateIssue {P : Provider} {session : Session}
    {parameters : JVal} {r : Response}
    (h : (handleCreateIssue P session parameters).1 = .responded r) : Envelope r := by
  unfold handleCreateIssue at h
  split at h
  · cases h
  · split at h
    · cases h
    · exact envelope_settleWithData h

theorem envelope_handleCreatePullRequest {P : Provider} {session : Session}
    {parameters : JVal} {r : Response}
    (h : (handleCreatePullRequest P session parameters).1 = .responded r) : Envelope r := by
  unfold handleCreatePullRequest at h
  split at h
  · cases h
  · split at h
    · cases h
    · exact envelope_settleWithData h

theorem envelope_handleCommand {P : Provider} {st : State} {req : Request} {r : Response}
    (h : (handleCommand P st req).outcome = .responded r) : Envelope r := by
  unfold handleCommand at h
  simp only at h
  split at h
  · cases h
    exact envelope_plain_error (Or.inr (Or.inl rfl))
  · split at h
    · cases h
    · split at h
      · cases h
        exact envelope_plain_error (Or.inr (Or.inr rfl))
      · split at h
        · cases h
        · split at h
          · split at h
            · exact envelope_handleCreateRepository h
            · split at h
              · exact envelope_handlePushFiles h
              · split at h
                · exact envelope_handleCreateIssue h
                · split at h
                  · exact envelope_handleCreatePullRequest h
                  · cases h
                    exact envelope_plain_error (Or.inl rfl)
          · cases h
            exact envelope_plain_error (Or.inl rfl)

theorem envelope_handleAuthenticate {P : Provider} {st : State} {req : Request}
    {r : Response} (h : (handleAuthenticate P st req).outcome = .responded r) :
    Envelope r := by
  unfold handleAuthenticate at h
  simp only at h
  split at h
  · cases h
    exact envelope_plain_error (Or.inr (Or.inl rfl))
  · split at h
    · cases h
    · simp only [authenticateSettled] at h
      split at h
      · cases h
        exact ⟨⟨"Authentication successful", by simp [lookupField]⟩,
          Or.inl ⟨by simp [lookupField], rfl, by simp [hasField]⟩⟩
      · cases h
        exact envelope_plain_error (Or.inr (Or.inl rfl))

/-! ## Claims on the envelope, on escaping exceptions and on late completions -/

/-- C17, as stated, fails: the response to a command on a session that is not
authenticated has status `error` and consists of `status` and `message` only; it
has no `error` property. -/
theorem error_response_without_classification :
    (handleCommand testProvider connectedState repositoryRequest).outcome =
      .responded ⟨403, [("status", str "error"),
        ("message", str "Session not authenticated")]⟩ ∧
    hasField "error" [("status", str "error"),
      ("message", str "Session not authenticated")] = false ∧
    ([("status", str "error"), ("message", str "Session not authenticated")].map
      (fun e => e.1)) = ["status", "message"] := by
  refine ⟨rfl, by decide, rfl⟩

/-- C17, amended: every response of the four handlers has a string `message` and
a `status` that is `success` (HTTP 200) or `error`; an error response of HTTP 500
carries a string `error` property, and the error responses of HTTP 400, 401 and
403 carry none. -/
theorem responses_in_envelope (P : Provider) (st : State) (amb : Ambient) (req : Request)
    (r : Response)
    (h : (handleConnect st amb req).outcome = .responded r ∨
      (handleAuthenticate P st req).outcome = .responded r ∨
      (handleCommand P st req).outcome = .responded r ∨
      (handleDisconnect st req).outcome = .responded r) :
    Envelope r := by
  rcases h with h | h | h | h
  · simp only [handleConnect] at h
    cases h
    exact ⟨⟨"Connection established. Authentication required.", by simp [lookupField]⟩,
      Or.inl ⟨by simp [lookupField], rfl, by simp [hasField]⟩⟩
  · exact envelope_handleAuthenticate h
  · exact envelope_handleCommand h
  · simp only [handleDisconnect] at h
    cases h
    exact ⟨⟨"Disconnected", by simp [disconnectedBody, lookupField]⟩,
      Or.inl ⟨by simp [disconnectedBody, lookupField], rfl,
        by simp [disconnectedBody, hasField]⟩⟩

theorem responses_in_envelope_witness :
    Envelope ⟨500, [("status", str "error"), ("message", str "Failed to create repository"),
      ("error", str "name already exists on this account")]⟩ :=
  responses_in_envelope failingProvider authenticatedState testAmbient repositoryRequest _
    (Or.inr (Or.inr (Or.inl rfl)))

/-- C18: on an authenticated live session, a registered command whose
`parameters` property is absent, or is `null`, makes the handler throw a
`TypeError` while destructuring: no response is produced and no provider
operation is invoked. -/
theorem handleCommand_throws_without_parameters :
    handleCommand testProvider authenticatedState bareRepositoryRequest =
      ⟨authenticatedState,
       .threw "Cannot destructure property \x27name\x27 of \x27parameters\x27 as it is undefined.",
       []⟩ ∧
    handleCommand testProvider authenticatedState nullPullRequest =
      ⟨authenticatedState,
       .threw "Cannot destructure property \x27owner\x27 of \x27parameters\x27 as it is null.",
       []⟩ := by
  constructor <;> rfl

/-! ## Late completions -/

/-- The callbacks of `handleAuthenticate` never add a key to the Map. -/
theorem authenticateSettled_keeps_absent {st : State} {k : String} (r : Nat)
    (settled : Except String User) (h : SessionMap.find k st.sessions = none) :
    SessionMap.find k (authenticateSettled st r settled).1.sessions = none := by
  cases settled with
  | error m => simpa [authenticateSettled] using h
  | ok u => simp [authenticateSettled, SessionMap.find_mutate, h]

/-- A handler run to completion is its synchronous part followed at once by its
callbacks. -/
theorem handleAuthenticate_eq_settled (P : Provider) (st : State) (req : Request) (r : Nat)
    (h : authenticateStarted st req = some r) :
    (handleAuthenticate P st req).state =
      (authenticateSettled st r (P.verifyToken (lookupField "token" req.body))).1 ∧
    (handleAuthenticate P st req).outcome =
      (authenticateSettled st r (P.verifyToken (lookupField "token" req.body))).2 := by
  simp only [authenticateStarted] at h
  simp only [handleAuthenticate]
  split at h
  · cases h
  · rename_i hg
    rw [if_neg hg]
    cases hget : st.sessions.get (lookupField "sessionId" req.body) with
    | none => simp [hget] at h
    | some session =>
      simp only [hget, Option.map_some', Option.some.injEq] at h
      subst h
      exact ⟨rfl, rfl⟩

theorem absent_of_disconnect {st : State} {req : Request} {sid : String} {s : Session}
    (hreach : Reachable st) (hlive : SessionMap.find sid st.sessions = some s)
    (hreq : lookupField "sessionId" req.body = str sid) :
    SessionMap.find sid (handleDisconnect st req).state.sessions = none := by
  have ht := truthy_of_live hreach hlive
  have hstate : (handleDisconnect st req).state.sessions =
      st.sessions.filter (fun e => e.1 != sid) := by
    simp [handleDisconnect, hreq, ht, SessionMap.has, hlive, SessionMap.delete]
  rw [hstate]
  exact SessionMap.find_filter_self _ _

theorem handleCommand_of_absent (P : Provider) {st : State} {req : Request} {sid : String}
    (h : SessionMap.find sid st.sessions = none)
    (hreq : lookupField "sessionId" req.body = str sid) :
    handleCommand P st req = ⟨st, .responded ⟨401, invalidSessionBody⟩, []⟩ := by
  apply handleCommand_of_guard
  simp [hreq, SessionMap.has, h]

/-- C19: when an authenticate has started on a live session (the verifier is in
flight, the callbacks hold the record) and a disconnect removes the session
before the verifier settles, then after the callbacks ran, on acceptance as on
rejection, the store has no record for the id and a command with the id is
answered with HTTP 401 `Invalid session ID`; the same holds after the callbacks
of a command handler whose provider operation settles after the disconnect. -/
theorem completion_after_disconnect (P : Provider) (st : State) (reqA reqD : Request)
    (sid : String) (s : Session) (hreach : Reachable st)
    (hlive : SessionMap.find sid st.sessions = some s)
    (hA : lookupField "sessionId" reqA.body = str sid)
    (hD : lookupField "sessionId" reqD.body = str sid) :
    authenticateStarted st reqA = some s.ref ∧
    (∀ settled : Except String User,
      SessionMap.find sid
        (authenticateSettled (handleDisconnect st reqD).state s.ref settled).1.sessions = none ∧
      ∀ req : Request, lookupField "sessionId" req.body = str sid →
        handleCommand P (authenticateSettled (handleDisconnect st reqD).state s.ref settled).1
            req =
          ⟨(authenticateSettled (handleDisconnect st reqD).state s.ref settled).1,
            .responded ⟨401, [("status", str "error"),
              ("message", str "Invalid session ID")]⟩, []⟩) ∧
    (∀ (respond : Except String JVal → Outcome) (settled : Except String JVal),
      SessionMap.find sid
        (commandSettled (handleDisconnect st reqD).state respond settled).1.sessions = none ∧
      ∀ req : Request, lookupField "sessionId" req.body = str sid →
        handleCommand P (commandSettled (handleDisconnect st reqD).state respond settled).1
            req =
          ⟨(commandSettled (handleDisconnect st reqD).state respond settled).1,
            .responded ⟨401, [("status", str "error"),
              ("message", str "Invalid session ID")]⟩, []⟩) := by
  have ht := truthy_of_live hreach hlive
  have habsent := absent_of_disconnect hreach hlive hD
  refine ⟨?_, ?_, ?_⟩
  · simp [authenticateStarted, hA, ht, SessionMap.has, SessionMap.get, hlive]
  · intro settled
    have h := authenticateSettled_keeps_absent s.ref settled habsent
    exact ⟨h, fun req hreq => handleCommand_of_absent P h hreq⟩
  · intro respond settled
    exact ⟨habsent, fun req hreq => handleCommand_of_absent P habsent hreq⟩

theorem completion_after_disconnect_witness :
    SessionMap.find testId
      (authenticateSettled (handleDisconnect connectedState (disconnectRequest testId)).state 0
        (.ok testUser)).1.sessions = none :=
  ((completion_after_disconnect testProvider connectedState
    (authenticateRequest "valid_token") (disconnectRequest testId) testId connectedRecord
    reachable_connectedState rfl rfl rfl).2.1 (.ok testUser)).1

end McpProtocol
